import Mathlib

/-!
Shallow embedding of the authentication/session core of the WisalFront
repository: the token codec (`decodeJwt`), the session derivation
(`applyAuthResponse`), the persistence helpers, the HTTP client's
credential plumbing and 401 interceptor (`setAuthToken`,
`responseErrorInterceptor`), the auth operations (`login`, `logout`,
`refresh`) and the route guard (`ProtectedRoute`).

JavaScript runtime values reaching these functions (parsed JSON bodies,
token payloads) are modelled by `JsValue`; property access, truthiness
and the `||` operator are given their JavaScript semantics.  JSON
numbers are carried as their literal text: none of the embedded code
does arithmetic on them, only truthiness tests, which are decided
syntactically on the literal.
-/

/-- The four employee roles of `src/constants/roles.ts`. -/
inductive EmployeeRole where
  | ADMIN
  | DISTRIBUTER
  | PUBLISHER
  | DELIVERER
deriving DecidableEq, Repr

/-- The enum value's literal string, as it appears in code and storage. -/
def EmployeeRole.toString : EmployeeRole → String
  | .ADMIN => "ADMIN"
  | .DISTRIBUTER => "DISTRIBUTER"
  | .PUBLISHER => "PUBLISHER"
  | .DELIVERER => "DELIVERER"

/-- JavaScript runtime values as they occur in parsed JSON / auth
responses.  `undefined` is the result of reading an absent property; `num`
carries the JSON numeric literal verbatim. -/
inductive JsValue where
  | null
  | undefined
  | bool (b : Bool)
  | num (raw : String)
  | str (s : String)
  | arr (elems : List JsValue)
  | obj (fields : List (String × JsValue))
deriving Repr

mutual

def JsValue.beq : JsValue → JsValue → Bool
  | .null, .null => true
  | .undefined, .undefined => true
  | .bool a, .bool b => a == b
  | .num a, .num b => a == b
  | .str a, .str b => a == b
  | .arr a, .arr b => JsValue.beqList a b
  | .obj a, .obj b => JsValue.beqFields a b
  | _, _ => false

def JsValue.beqList : List JsValue → List JsValue → Bool
  | [], [] => true
  | a :: as, b :: bs => JsValue.beq a b && JsValue.beqList as bs
  | _, _ => false

def JsValue.beqFields : List (String × JsValue) → List (String × JsValue) → Bool
  | [], [] => true
  | (k, v) :: as, (k2, v2) :: bs =>
      k == k2 && JsValue.beq v v2 && JsValue.beqFields as bs
  | _, _ => false

end

mutual

theorem JsValue.beq_iff_eq : ∀ a b : JsValue, JsValue.beq a b = true ↔ a = b
  | .null, b => by cases b <;> simp [JsValue.beq]
  | .undefined, b => by cases b <;> simp [JsValue.beq]
  | .bool a, b => by cases b <;> simp [JsValue.beq]
  | .num a, b => by cases b <;> simp [JsValue.beq]
  | .str a, b => by cases b <;> simp [JsValue.beq]
  | .arr a, b => by
      cases b <;> simp [JsValue.beq]
      exact JsValue.beqList_iff_eq a _
  | .obj a, b => by
      cases b <;> simp [JsValue.beq]
      exact JsValue.beqFields_iff_eq a _

theorem JsValue.beqList_iff_eq : ∀ a b : List JsValue,
    JsValue.beqList a b = true ↔ a = b
  | [], b => by cases b <;> simp [JsValue.beqList]
  | a :: as, b => by
      cases b with
      | nil => simp [JsValue.beqList]
      | cons b bs =>
          simp [JsValue.beqList, Bool.and_eq_true]
          exact and_congr (JsValue.beq_iff_eq a b) (JsValue.beqList_iff_eq as bs)

theorem JsValue.beqFields_iff_eq : ∀ a b : List (String × JsValue),
    JsValue.beqFields a b = true ↔ a = b
  | [], b => by cases b <;> simp [JsValue.beqFields]
  | (k, v) :: as, b => by
      cases b with
      | nil => simp [JsValue.beqFields]
      | cons p bs =>
          obtain ⟨k2, v2⟩ := p
          simp [JsValue.beqFields, Bool.and_eq_true, and_assoc]
          exact fun _ =>
            and_congr (JsValue.beq_iff_eq v v2) (JsValue.beqFields_iff_eq as bs)

end

instance : DecidableEq JsValue := fun a b =>
  decidable_of_iff (JsValue.beq a b = true) (JsValue.beq_iff_eq a b)

/-- Is the mantissa of a JSON numeric literal zero (so the number is
falsy in JavaScript)?  Decided on the literal text. -/
def jsonNumIsZero (raw : String) : Bool :=
  ((raw.toList.takeWhile fun c => c ≠ 'e' ∧ c ≠ 'E').filter fun c =>
    c ≠ '.' ∧ c ≠ '-').all (· = '0')

/-- JavaScript truthiness. -/
def truthy : JsValue → Bool
  | .null => false
  | .undefined => false
  | .bool b => b
  | .num raw => !jsonNumIsZero raw
  | .str s => s ≠ ""
  | .arr _ => true
  | .obj _ => true

/-- Does `typeof v === 'object'` hold?  (In JavaScript `typeof null`
is `'object'` and arrays are objects.) -/
def typeofIsObject : JsValue → Bool
  | .null => true
  | .arr _ => true
  | .obj _ => true
  | _ => false

/-- Property read `v[k]` / `v?.[k]`.  On objects: lookup (the JSON
parser keeps keys unique, last duplicate wins); on every other value
the named properties read here do not exist, so the result is
`undefined`.  (Reads on `null`/`undefined` only occur behind `?.` or a
truthiness guard in the source, where they also yield `undefined`.) -/
def getField (v : JsValue) (k : String) : JsValue :=
  match v with
  | .obj fields =>
      match fields.find? (fun p => p.1 == k) with
      | some p => p.2
      | none => .undefined
  | _ => .undefined

/-- JavaScript `a || b`: the first operand if truthy, else the second. -/
def jsOr (a b : JsValue) : JsValue :=
  if truthy a then a else b

/-- The type-guard narrowing of `isEmployeeRole` (`value === 'ADMIN' ||
value === 'DISTRIBUTER' || ...`): the matched enum member, if any. -/
def asEmployeeRole : JsValue → Option EmployeeRole
  | .str "ADMIN" => some .ADMIN
  | .str "DISTRIBUTER" => some .DISTRIBUTER
  | .str "PUBLISHER" => some .PUBLISHER
  | .str "DELIVERER" => some .DELIVERER
  | _ => none

/-- `isEmployeeRole` from `src/constants/roles.ts`. -/
def isEmployeeRole (v : JsValue) : Bool :=
  (asEmployeeRole v).isSome

/-- `ROLE_DEFAULT_ROUTE` from `src/constants/roles.ts`. -/
def ROLE_DEFAULT_ROUTE : EmployeeRole → String
  | .ADMIN => "/"
  | .DISTRIBUTER => "/distribution"
  | .PUBLISHER => "/posts"
  | .DELIVERER => "/deliver"

/-- `getDefaultRouteForRole` from `src/constants/roles.ts`:
`if (!role) return '/'; return ROLE_DEFAULT_ROUTE[role] ?? '/'`. -/
def getDefaultRouteForRole : Option EmployeeRole → String
  | none => "/"
  | some r => ROLE_DEFAULT_ROUTE r

/-! ### Token codec (`decodeJwt`, `src/providers/AuthProvider.tsx` 14-24)

`decodeJwt` runs `token.split('.')`, takes the second segment, swaps the
base64url alphabet back to base64, `atob`s it, converts the resulting
latin-1 byte string to text via `decodeURIComponent(escape(...))` —
which is exactly strict UTF-8 decoding of the byte sequence — and
`JSON.parse`s the text; any failure is caught and yields `null`. -/

/-- `String.prototype.split` with a single-character separator. -/
def splitOnChar (sep : Char) : List Char → List (List Char)
  | [] => [[]]
  | c :: rest =>
    let r := splitOnChar sep rest
    if c = sep then [] :: r
    else
      match r with
      | h :: t => (c :: h) :: t
      | [] => [[c]]

def isAsciiWhitespace (c : Char) : Bool :=
  c = ' ' ∨ c = '\t' ∨ c = '\n' ∨ c = Char.ofNat 12 ∨ c = '\r'

def b64CharVal (c : Char) : Option Nat :=
  if 'A' ≤ c ∧ c ≤ 'Z' then some (c.toNat - 65)
  else if 'a' ≤ c ∧ c ≤ 'z' then some (c.toNat - 97 + 26)
  else if '0' ≤ c ∧ c ≤ '9' then some (c.toNat - 48 + 52)
  else if c = '+' then some 62
  else if c = '/' then some 63
  else none

def stripTrailingEq (cs : List Char) : List Char :=
  match cs.reverse with
  | '=' :: '=' :: rest => rest.reverse
  | '=' :: rest => rest.reverse
  | _ => cs

/-- Regroup 6-bit values into bytes; a leftover of two or three values
contributes one or two bytes, surplus bits discarded. -/
def b64Bytes : List Nat → List Nat
  | a :: b :: c :: d :: rest =>
      (a * 4 + b / 16) :: ((b % 16) * 16 + c / 4) :: ((c % 4) * 64 + d) :: b64Bytes rest
  | [a, b] => [a * 4 + b / 16]
  | [a, b, c] => [a * 4 + b / 16, (b % 16) * 16 + c / 4]
  | _ => []

/-- `atob`: the WHATWG forgiving-base64 decode — strip ASCII
whitespace, strip up to two trailing `=` when the length is a multiple
of four, fail on length ≡ 1 (mod 4) or any non-alphabet character. -/
def atob (s : List Char) : Option (List Nat) :=
  let data := s.filter fun c => !isAsciiWhitespace c
  let data := if data.length % 4 == 0 then stripTrailingEq data else data
  if data.length % 4 == 1 then none
  else (data.mapM b64CharVal).map b64Bytes

def isUtf8Cont (b : Nat) : Bool := 0x80 ≤ b ∧ b ≤ 0xBF

/-- Strict UTF-8 decoding of a byte sequence (rejecting overlong forms,
surrogates and out-of-range lead bytes) — the observable behaviour of
`decodeURIComponent(escape(bytes))` on a latin-1 string. -/
def utf8Decode : List Nat → Option (List Char)
  | [] => some []
  | b1 :: t1 =>
    if b1 < 0x80 then
      (utf8Decode t1).map (Char.ofNat b1 :: ·)
    else if b1 < 0xC2 then none
    else if b1 ≤ 0xDF then
      match t1 with
      | b2 :: t2 =>
        if isUtf8Cont b2 then
          (utf8Decode t2).map (Char.ofNat ((b1 - 0xC0) * 0x40 + (b2 - 0x80)) :: ·)
        else none
      | [] => none
    else if b1 ≤ 0xEF then
      match t1 with
      | b2 :: b3 :: t3 =>
        let lo2 := if b1 = 0xE0 then 0xA0 else 0x80
        let hi2 := if b1 = 0xED then 0x9F else 0xBF
        if lo2 ≤ b2 ∧ b2 ≤ hi2 ∧ isUtf8Cont b3 then
          (utf8Decode t3).map
            (Char.ofNat ((b1 - 0xE0) * 0x1000 + (b2 - 0x80) * 0x40 + (b3 - 0x80)) :: ·)
        else none
      | _ => none
    else if b1 ≤ 0xF4 then
      match t1 with
      | b2 :: b3 :: b4 :: t4 =>
        let lo2 := if b1 = 0xF0 then 0x90 else 0x80
        let hi2 := if b1 = 0xF4 then 0x8F else 0xBF
        if lo2 ≤ b2 ∧ b2 ≤ hi2 ∧ isUtf8Cont b3 ∧ isUtf8Cont b4 then
          (utf8Decode t4).map
            (Char.ofNat
              ((b1 - 0xF0) * 0x40000 + (b2 - 0x80) * 0x1000 +
                (b3 - 0x80) * 0x40 + (b4 - 0x80)) :: ·)
        else none
      | _ => none
    else none

/-! ### `JSON.parse` -/

def jsonWs (c : Char) : Bool :=
  c = ' ' ∨ c = '\t' ∨ c = '\n' ∨ c = '\r'

def skipWs (cs : List Char) : List Char := cs.dropWhile jsonWs

def hexVal (c : Char) : Option Nat :=
  if '0' ≤ c ∧ c ≤ '9' then some (c.toNat - 48)
  else if 'a' ≤ c ∧ c ≤ 'f' then some (c.toNat - 97 + 10)
  else if 'A' ≤ c ∧ c ≤ 'F' then some (c.toNat - 65 + 10)
  else none

/-- If the input starts with a `\uXXXX` escape denoting a low
surrogate, its code unit (always six characters long). -/
def lowSurrogateEscape : List Char → Option Nat
  | '\\' :: 'u' :: g1 :: g2 :: g3 :: g4 :: _ =>
    match hexVal g1, hexVal g2, hexVal g3, hexVal g4 with
    | some a, some b, some c, some d =>
      let m := a * 4096 + b * 256 + c * 16 + d
      if 0xDC00 ≤ m ∧ m ≤ 0xDFFF then some m else none
    | _, _, _, _ => none
  | _ => none

/-- Body of a JSON string after the opening quote: content and the
remainder after the closing quote.  Surrogate `\u` pairs combine into
one character; a lone surrogate (which JavaScript keeps as a bare UTF-16
code unit, not representable in a Lean `String`) is carried as U+FFFD —
no embedded code path inspects such a string.  Every step consumes at
least one character, so the `length + 1` fuel callers pass never runs
out. -/
def parseStringBody : Nat → List Char → Option (List Char × List Char)
  | 0, _ => none
  | _ + 1, [] => none
  | _ + 1, '"' :: rest => some ([], rest)
  | fuel + 1, '\\' :: rest =>
    match rest with
    | '"' :: r => (parseStringBody fuel r).map fun p => ('"' :: p.1, p.2)
    | '\\' :: r => (parseStringBody fuel r).map fun p => ('\\' :: p.1, p.2)
    | '/' :: r => (parseStringBody fuel r).map fun p => ('/' :: p.1, p.2)
    | 'b' :: r => (parseStringBody fuel r).map fun p => (Char.ofNat 8 :: p.1, p.2)
    | 'f' :: r => (parseStringBody fuel r).map fun p => (Char.ofNat 12 :: p.1, p.2)
    | 'n' :: r => (parseStringBody fuel r).map fun p => ('\n' :: p.1, p.2)
    | 'r' :: r => (parseStringBody fuel r).map fun p => ('\r' :: p.1, p.2)
    | 't' :: r => (parseStringBody fuel r).map fun p => ('\t' :: p.1, p.2)
    | 'u' :: h1 :: h2 :: h3 :: h4 :: r =>
      match hexVal h1, hexVal h2, hexVal h3, hexVal h4 with
      | some a, some b, some c, some d =>
        let n := a * 4096 + b * 256 + c * 16 + d
        if 0xD800 ≤ n ∧ n ≤ 0xDBFF then
          match lowSurrogateEscape r with
          | some m =>
            (parseStringBody fuel (r.drop 6)).map fun p =>
              (Char.ofNat (0x10000 + (n - 0xD800) * 0x400 + (m - 0xDC00)) :: p.1, p.2)
          | none =>
            (parseStringBody fuel r).map fun p => (Char.ofNat 0xFFFD :: p.1, p.2)
        else if 0xDC00 ≤ n ∧ n ≤ 0xDFFF then
          (parseStringBody fuel r).map fun p => (Char.ofNat 0xFFFD :: p.1, p.2)
        else
          (parseStringBody fuel r).map fun p => (Char.ofNat n :: p.1, p.2)
      | _, _, _, _ => none
    | _ => none
  | fuel + 1, c :: rest =>
    if c.toNat < 0x20 then none
    else (parseStringBody fuel rest).map fun p => (c :: p.1, p.2)

def takeDigits (cs : List Char) : List Char × List Char :=
  (cs.takeWhile Char.isDigit, cs.dropWhile Char.isDigit)

def parseFracPart (cs : List Char) : List Char × List Char :=
  match cs with
  | '.' :: rest =>
    let (ds, r) := takeDigits rest
    if ds.isEmpty then ([], cs) else ('.' :: ds, r)
  | _ => ([], cs)

def parseExpPart (cs : List Char) : List Char × List Char :=
  match cs with
  | e :: rest =>
    if e = 'e' ∨ e = 'E' then
      match rest with
      | s :: rest2 =>
        if s = '+' ∨ s = '-' then
          let (ds, r) := takeDigits rest2
          if ds.isEmpty then ([], cs) else (e :: s :: ds, r)
        else
          let (ds, r) := takeDigits rest
          if ds.isEmpty then ([], cs) else (e :: ds, r)
      | [] => ([], cs)
    else ([], cs)
  | [] => ([], cs)

/-- Lex a JSON number, returning its literal text (leading zeros are
not absorbed, so `01` leaves a stray `1` that fails the grammar around
it, as in `JSON.parse`). -/
def parseNumber (cs : List Char) : Option (List Char × List Char) :=
  let signAndRest : List Char × List Char :=
    match cs with
    | '-' :: rest => (['-'], rest)
    | _ => ([], cs)
  let sign := signAndRest.1
  let cs1 := signAndRest.2
  match cs1 with
  | c :: _ =>
    if c = '0' then
      let (fr, r1) := parseFracPart cs1.tail
      let (ex, r2) := parseExpPart r1
      some (sign ++ [c] ++ fr ++ ex, r2)
    else if c.isDigit then
      let (ds, r0) := takeDigits cs1
      let (fr, r1) := parseFracPart r0
      let (ex, r2) := parseExpPart r1
      some (sign ++ ds ++ fr ++ ex, r2)
    else none
  | [] => none

/-- Insert a member, overwriting an existing key (`JSON.parse` keeps
the last duplicate). -/
def setField (fields : List (String × JsValue)) (k : String) (v : JsValue) :
    List (String × JsValue) :=
  if fields.any (fun p => p.1 == k) then
    fields.map fun p => if p.1 == k then (k, v) else p
  else fields ++ [(k, v)]

mutual

def parseJsonValue (fuel : Nat) (cs : List Char) : Option (JsValue × List Char) :=
  match fuel with
  | 0 => none
  | fuel + 1 =>
    match skipWs cs with
    | '{' :: rest => parseJsonMembers fuel rest []
    | '[' :: rest => parseJsonElements fuel rest []
    | '"' :: rest =>
      (parseStringBody (rest.length + 1) rest).map fun p => (.str ⟨p.1⟩, p.2)
    | 't' :: 'r' :: 'u' :: 'e' :: rest => some (.bool true, rest)
    | 'f' :: 'a' :: 'l' :: 's' :: 'e' :: rest => some (.bool false, rest)
    | 'n' :: 'u' :: 'l' :: 'l' :: rest => some (.null, rest)
    | other => (parseNumber other).map fun p => (.num ⟨p.1⟩, p.2)

def parseJsonMembers (fuel : Nat) (cs : List Char)
    (acc : List (String × JsValue)) : Option (JsValue × List Char) :=
  match fuel with
  | 0 => none
  | fuel + 1 =>
    match skipWs cs with
    | '}' :: rest => if acc.isEmpty then some (.obj acc, rest) else none
    | '"' :: rest =>
      match parseStringBody (rest.length + 1) rest with
      | some (key, r1) =>
        match skipWs r1 with
        | ':' :: r2 =>
          match parseJsonValue fuel r2 with
          | some (v, r3) =>
            let acc2 := setField acc ⟨key⟩ v
            match skipWs r3 with
            | ',' :: r4 => parseJsonMembers fuel r4 acc2
            | '}' :: r4 => some (.obj acc2, r4)
            | _ => none
          | none => none
        | _ => none
      | none => none
    | _ => none

def parseJsonElements (fuel : Nat) (cs : List Char)
    (acc : List JsValue) : Option (JsValue × List Char) :=
  match fuel with
  | 0 => none
  | fuel + 1 =>
    match skipWs cs with
    | ']' :: rest => if acc.isEmpty then some (.arr acc, rest) else none
    | other =>
      match parseJsonValue fuel other with
      | some (v, r1) =>
        match skipWs r1 with
        | ',' :: r2 => parseJsonElements fuel r2 (acc ++ [v])
        | ']' :: r2 => some (.arr (acc ++ [v]), r2)
        | _ => none
      | none => none

end

/-- `JSON.parse`: one value, then only whitespace.  The fuel bounds the
chain of nested parser calls; each link consumes at least one input
character, so `length + 1` never runs out. -/
def jsonParse (cs : List Char) : Option JsValue :=
  match parseJsonValue (cs.length + 1) cs with
  | some (v, rest) => if (skipWs rest).isEmpty then some v else none
  | none => none

/-- `decodeJwt` (`src/providers/AuthProvider.tsx` 14-24).  Failure
returns JavaScript `null` — the same value a `"null"` payload parses
to, exactly as in the source. -/
def decodeJwt (token : String) : JsValue :=
  let segments := splitOnChar '.' token.toList
  match segments[1]? with
  | none => .null
  | some payload =>
    if payload.isEmpty then .null
    else
      let normalized := payload.map fun c =>
        if c = '-' then '+' else if c = '_' then '/' else c
      match atob normalized with
      | none => .null
      | some bytes =>
        match utf8Decode bytes with
        | none => .null
        | some chars =>
          match jsonParse chars with
          | none => .null
          | some v => v

/-! ### Session state, persistence and the HTTP client credential

`Store` is the durable `localStorage` slice (keys `institutionId`,
`employeeRole`, `employeeId`); `AuthState` bundles it with the React
state of `useAuthProviderState` and the HTTP client's default
`Authorization` header (`api.defaults.headers.common.Authorization`). -/

structure Store where
  institutionId : Option String
  employeeRole : Option String
  employeeId : Option String
deriving DecidableEq, Repr

structure AuthState where
  authHeader : Option String
  isAuthenticated : Bool
  initializing : Bool
  institutionId : Option String
  role : Option EmployeeRole
  employeeId : Option String
  store : Store
deriving DecidableEq, Repr

/-- Truthiness of a `string | null` value. -/
def truthyStr : Option String → Bool
  | some s => s ≠ ""
  | none => false

/-- `setAuthToken` (`src/api/httpClient.ts` 45-51): a truthy token
installs `Authorization: Bearer <token>` as a default header, anything
else deletes the default header. -/
def setAuthToken (token : Option String) (st : AuthState) : AuthState :=
  if truthyStr token then
    { st with authHeader := token.map ("Bearer " ++ ·) }
  else
    { st with authHeader := none }

/-- `persistInstitutionId` (`src/providers/AuthProvider.tsx` 60-67):
set the React state, then write the key for a truthy value and remove
it otherwise. -/
def persistInstitutionId (value : Option String) (st : AuthState) : AuthState :=
  let st := { st with institutionId := value }
  if truthyStr value then
    { st with store.institutionId := value }
  else
    { st with store.institutionId := none }

/-- `persistRole` (`src/providers/AuthProvider.tsx` 69-76).  The value
is `EmployeeRole | null`; an enum member is a non-empty string, hence
always truthy. -/
def persistRole (value : Option EmployeeRole) (st : AuthState) : AuthState :=
  let st := { st with role := value }
  match value with
  | some r => { st with store.employeeRole := some r.toString }
  | none => { st with store.employeeRole := none }

/-- `persistEmployeeId` (`src/providers/AuthProvider.tsx` 78-85). -/
def persistEmployeeId (value : Option String) (st : AuthState) : AuthState :=
  let st := { st with employeeId := value }
  if truthyStr value then
    { st with store.employeeId := value }
  else
    { st with store.employeeId := none }

/-- The `role` initializer of `useAuthProviderState` (lines 52-55):
`stored && isEmployeeRole(stored) ? stored : null` on the raw
`localStorage` value. -/
def initRole (stored : Option String) : Option EmployeeRole :=
  match stored with
  | some s => if s ≠ "" then asEmployeeRole (.str s) else none
  | none => none

/-! ### `applyAuthResponse` (`src/providers/AuthProvider.tsx` 87-155)

The derivation is embedded block by block following the source: the
token step (lines 98-123), then the three fallbacks (125-135, 137-142,
144-150), threading the `next*` locals and the state. -/

structure DerivedSession where
  role : Option EmployeeRole
  institutionId : Option String
  employeeId : Option String
deriving DecidableEq, Repr

/-- Lines 98-123: a truthy string `accessToken` is installed via
`setAuthToken`, then its decoded claims (if truthy) seed the three
`next*` values, persisting each one derived. -/
def applyTokenStep (payload : JsValue) (st : AuthState) : DerivedSession × AuthState :=
  match getField payload "accessToken" with
  | .str t =>
    if t = "" then (⟨none, none, none⟩, st)
    else
      let st := setAuthToken (some t) st
      let claims := decodeJwt t
      if truthy claims then
        let nextInstitutionId :=
          match getField claims "institutionId" with
          | .str s => if s ≠ "" then some s else none
          | _ => none
        let st :=
          match nextInstitutionId with
          | some s => persistInstitutionId (some s) st
          | none => st
        let nextRole := asEmployeeRole (getField claims "role")
        let st :=
          match nextRole with
          | some r => persistRole (some r) st
          | none => st
        let nextEmployeeId :=
          match getField claims "sub" with
          | .str s => if s ≠ "" then some s else none
          | _ => none
        let st :=
          match nextEmployeeId with
          | some s => persistEmployeeId (some s) st
          | none => st
        (⟨nextRole, nextInstitutionId, nextEmployeeId⟩, st)
      else (⟨none, none, none⟩, st)
  | _ => (⟨none, none, none⟩, st)

/-- Lines 125-128: `payload.institutionId || payload.institution?.id ||
payload.user?.institutionId`. -/
def instFallbackValue (payload : JsValue) : JsValue :=
  jsOr (jsOr (getField payload "institutionId")
      (getField (getField payload "institution") "id"))
    (getField (getField payload "user") "institutionId")

/-- Lines 130-135.  The `persistInstitutionId` call is not gated on
step 1 having run — only the returned `next` value is. -/
def applyInstFallback (payload : JsValue) (next : DerivedSession) (st : AuthState) :
    DerivedSession × AuthState :=
  match instFallbackValue payload with
  | .str s =>
    if s ≠ "" then
      let st := persistInstitutionId (some s) st
      (if truthyStr next.institutionId then next else { next with institutionId := some s }, st)
    else (next, st)
  | _ => (next, st)

/-- Lines 137-138: `payload.role || payload.user?.role`. -/
def roleFallbackValue (payload : JsValue) : JsValue :=
  jsOr (getField payload "role") (getField (getField payload "user") "role")

/-- Lines 139-142: applied only when the enum guard passes and no role
was derived from the claims. -/
def applyRoleFallback (payload : JsValue) (next : DerivedSession) (st : AuthState) :
    DerivedSession × AuthState :=
  match asEmployeeRole (roleFallbackValue payload) with
  | some r =>
    if next.role = none then ({ next with role := some r }, persistRole (some r) st)
    else (next, st)
  | none => (next, st)

/-- Lines 144-146: `payload.id || payload.user?.id`. -/
def employeeFallbackValue (payload : JsValue) : JsValue :=
  jsOr (getField payload "id") (getField (getField payload "user") "id")

/-- Lines 147-150. -/
def applyEmployeeFallback (payload : JsValue) (next : DerivedSession) (st : AuthState) :
    DerivedSession × AuthState :=
  match employeeFallbackValue payload with
  | .str s =>
    if s ≠ "" ∧ !truthyStr next.employeeId then
      ({ next with employeeId := some s }, persistEmployeeId (some s) st)
    else (next, st)
  | _ => (next, st)

/-- `applyAuthResponse` (lines 87-155): early return on a non-object
(`!response || typeof response !== 'object'`), otherwise the token step
followed by the three fallbacks. -/
def applyAuthResponse (response : JsValue) (st : AuthState) : DerivedSession × AuthState :=
  if !truthy response || !typeofIsObject response then
    (⟨none, none, none⟩, st)
  else
    let (next, st) := applyTokenStep response st
    let (next, st) := applyInstFallback response next st
    let (next, st) := applyRoleFallback response next st
    applyEmployeeFallback response next st

/-! ### HTTP client error path and the auth operations -/

/-- The uniform rejection shape built by the interceptor. -/
structure ApiError where
  status : Option Nat
  message : JsValue
  details : Option JsValue
deriving DecidableEq, Repr

/-- A server-supplied error response (`error.response`): status code
and parsed body. -/
structure ErrorResponse where
  status : Nat
  data : JsValue
deriving DecidableEq, Repr

/-- The error path of `api.interceptors.response` (`src/api/httpClient.ts`
26-42); `none` models a network failure with no response at all. -/
def responseErrorInterceptor (response : Option ErrorResponse) (st : AuthState) :
    AuthState × ApiError :=
  match response with
  | some r =>
    let message :=
      jsOr (jsOr (jsOr (getField r.data "message") (getField r.data "error"))
          (getField r.data "title"))
        (.str "حدث خطأ غير متوقع")
    let st := if r.status = 401 then setAuthToken none st else st
    (st, ⟨some r.status, message, some r.data⟩)
  | none => (st, ⟨none, .str "تعذر الاتصال بالخادم", none⟩)

/-- The five local-cleanup statements shared verbatim by the `catch`
blocks of `login`/`refresh` and the `finally` block of `logout`:
credential, flag, then the three fields in order. -/
def clearLocalSession (st : AuthState) : AuthState :=
  let st := setAuthToken none st
  let st := { st with isAuthenticated := false }
  let st := persistInstitutionId none st
  let st := persistRole none st
  persistEmployeeId none st

/-- `login` (lines 184-200), indexed by the remote call's settled
outcome; returns the new state and the re-thrown error, if any. -/
def login (outcome : Except ApiError JsValue) (st : AuthState) :
    AuthState × Option ApiError :=
  match outcome with
  | .ok response =>
    let (_, st) := applyAuthResponse response st
    ({ st with isAuthenticated := true }, none)
  | .error e => (clearLocalSession st, some e)

/-- `refresh` (lines 157-170): identical body to `login` apart from the
endpoint called. -/
def refresh (outcome : Except ApiError JsValue) (st : AuthState) :
    AuthState × Option ApiError :=
  match outcome with
  | .ok response =>
    let (_, st) := applyAuthResponse response st
    ({ st with isAuthenticated := true }, none)
  | .error e => (clearLocalSession st, some e)

/-- `logout` (lines 202-212): the remote outcome (`none` = resolved)
does not gate the `finally` cleanup; a rejection is re-thrown after
it. -/
def logout (outcome : Option ApiError) (st : AuthState) :
    AuthState × Option ApiError :=
  (clearLocalSession st, outcome)

/-- The boot effect (lines 172-182): one `refresh`, its error
swallowed, `initializing` set false when it settles. -/
def bootSequence (outcome : Except ApiError JsValue) (st : AuthState) : AuthState :=
  let (st, _) := refresh outcome st
  { st with initializing := false }

/-! ### Route guard (`ProtectedRoute`) -/

inductive GuardOutcome where
  | loading
  | redirect (target : String)
  | render
deriving DecidableEq, Repr

/-- `ProtectedRoute`: loading view while initializing, `/login` when
unauthenticated, the role gate only when `allowedRoles` is present and
non-empty, else the nested route (`Outlet`). -/
def ProtectedRoute (allowedRoles : Option (List EmployeeRole)) (st : AuthState) :
    GuardOutcome :=
  if st.initializing then .loading
  else if !st.isAuthenticated then .redirect "/login"
  else
    match allowedRoles with
    | some roles =>
      if roles.length > 0 then
        match st.role with
        | none => .redirect "/unauthorized"
        | some r =>
          if roles.contains r then .render
          else .redirect (getDefaultRouteForRole (some r))
      else .render
    | none => .render

/-- The Route Guard decision exactly as the specification's §4.6 rules
read, written from those words for the refinement check of the matrix
property. -/
def guardSpec (allowedRoles : Option (List EmployeeRole))
    (initializing isAuthenticated : Bool) (role : Option EmployeeRole) :
    GuardOutcome :=
  if initializing then .loading
  else if isAuthenticated = false then .redirect "/login"
  else
    match allowedRoles, role with
    | some l, none => if l ≠ [] then .redirect "/unauthorized" else .render
    | some l, some r =>
      if l ≠ [] ∧ r ∉ l then .redirect (getDefaultRouteForRole (some r))
      else .render
    | none, _ => .render

/-! ### Basic lemmas about the state operations -/

theorem setAuthToken_none (st : AuthState) :
    setAuthToken none st = { st with authHeader := none } := rfl

theorem clearLocalSession_spec (st : AuthState) :
    clearLocalSession st =
      { authHeader := none, isAuthenticated := false,
        initializing := st.initializing, institutionId := none, role := none,
        employeeId := none, store := ⟨none, none, none⟩ } := rfl

/-! ### C7 — logout always cleans up locally -/

/-- C7: `logout()` always performs full local cleanup — the credential
and all three session fields are cleared (in memory and in storage) and
`isAuthenticated` becomes false — whether the remote logout call
resolved (`outcome = none`) or rejected (`outcome = some e`, re-thrown
after the `finally` cleanup). -/
theorem C7_logout_always_cleans_up (outcome : Option ApiError) (st : AuthState) :
    (logout outcome st).1.authHeader = none ∧
    (logout outcome st).1.isAuthenticated = false ∧
    (logout outcome st).1.institutionId = none ∧
    (logout outcome st).1.role = none ∧
    (logout outcome st).1.employeeId = none ∧
    (logout outcome st).1.store = ⟨none, none, none⟩ ∧
    (logout outcome st).2 = outcome :=
  ⟨rfl, rfl, rfl, rfl, rfl, rfl, rfl⟩

/-! ### C10 — persist helpers never store an empty value -/

/-- C10: each persist helper called with `null` (or, for the string
fields, the empty string) removes the durable-storage key; a truthy
value is written verbatim.  Hence any value present under a storage key
after a persist call is a non-empty string. -/
theorem C10_persist_empty_removes (v : Option String)
    (rv : Option EmployeeRole) (st : AuthState) :
    (persistInstitutionId none st).store.institutionId = none ∧
    (persistInstitutionId (some "") st).store.institutionId = none ∧
    (persistEmployeeId none st).store.employeeId = none ∧
    (persistEmployeeId (some "") st).store.employeeId = none ∧
    (persistRole none st).store.employeeRole = none ∧
    (persistInstitutionId v st).store.institutionId = (if truthyStr v then v else none) ∧
    (persistEmployeeId v st).store.employeeId = (if truthyStr v then v else none) ∧
    ((persistInstitutionId v st).store.institutionId.all fun s => decide (s ≠ "")) = true ∧
    ((persistEmployeeId v st).store.employeeId.all fun s => decide (s ≠ "")) = true ∧
    ((persistRole rv st).store.employeeRole.all fun s => decide (s ≠ "")) = true := by
  refine ⟨rfl, rfl, rfl, rfl, rfl, ?_, ?_, ?_, ?_, ?_⟩
  · simp only [persistInstitutionId]; split <;> rfl
  · simp only [persistEmployeeId]; split <;> rfl
  · cases v with
    | none => rfl
    | some s =>
      by_cases hs : s = "" <;>
        simp [persistInstitutionId, truthyStr, hs]
  · cases v with
    | none => rfl
    | some s =>
      by_cases hs : s = "" <;>
        simp [persistEmployeeId, truthyStr, hs]
  · cases rv with
    | none => rfl
    | some r => cases r <;> rfl


/-! ### C8 — route guard matrix -/

/-- C8: for every combination of initializing flag, authentication
flag, role and allow-list, `ProtectedRoute` produces exactly the
outcome demanded by the specification's ordered rules (loading;
redirect to login; redirect to the role's default landing route when a
role exists and to the unauthorized route otherwise; render), as
captured by `guardSpec`. -/
theorem C8_route_guard_matrix (allowedRoles : Option (List EmployeeRole))
    (st : AuthState) :
    ProtectedRoute allowedRoles st =
      guardSpec allowedRoles st.initializing st.isAuthenticated st.role := by
  obtain ⟨ah, auth, init, ii, role, ei, store⟩ := st
  simp only [ProtectedRoute, guardSpec]
  cases init with
  | true => rfl
  | false =>
    cases auth with
    | false => rfl
    | true =>
      cases allowedRoles with
      | none => rfl
      | some l =>
        cases role with
        | none =>
          cases l with
          | nil => rfl
          | cons x xs => simp
        | some r =>
          cases l with
          | nil => rfl
          | cons x xs =>
            by_cases hr : r ∈ x :: xs <;>
              simp [hr, List.contains, List.elem_iff]


/-- An authenticated, non-initializing session is never redirected to
the login route: no role's default landing route is `/login`. -/
theorem protectedRoute_ne_login_of_authenticated
    (allowed : Option (List EmployeeRole)) (st : AuthState)
    (h1 : st.initializing = false) (h2 : st.isAuthenticated = true) :
    ProtectedRoute allowed st ≠ GuardOutcome.redirect "/login" := by
  intro h
  obtain ⟨ah, auth, init, ii, role, ei, store⟩ := st
  obtain rfl : init = false := h1
  obtain rfl : auth = true := h2
  cases allowed with
  | none => simp [ProtectedRoute] at h
  | some l =>
    cases role with
    | none =>
      by_cases hl : 0 < l.length <;> simp [ProtectedRoute, hl] at h
    | some r =>
      by_cases hl : 0 < l.length
      · by_cases hr : r ∈ l
        · simp [ProtectedRoute, hl, hr, List.contains, List.elem_iff] at h
        · cases r <;> simp [ProtectedRoute, hl, hr, List.contains, List.elem_iff,
            getDefaultRouteForRole, ROLE_DEFAULT_ROUTE] at h
      · simp [ProtectedRoute, hl] at h

/-! ### C2 — what a 401 actually does -/

/-- C2 as stated is false: a 401 received in an authenticated session
clears only the credential.  At this concrete authenticated state the
three session fields survive, `isAuthenticated` stays true, and the
Route Guard on the next navigation renders instead of redirecting to
the login route. -/
theorem C2_counterexample :
    (responseErrorInterceptor (some ⟨401, .null⟩)
        ⟨some "Bearer t", true, false, some "inst-1", some .ADMIN, some "emp-1",
          ⟨some "inst-1", some "ADMIN", some "emp-1"⟩⟩).1.institutionId
        = some "inst-1" ∧
    (responseErrorInterceptor (some ⟨401, .null⟩)
        ⟨some "Bearer t", true, false, some "inst-1", some .ADMIN, some "emp-1",
          ⟨some "inst-1", some "ADMIN", some "emp-1"⟩⟩).1.role = some .ADMIN ∧
    (responseErrorInterceptor (some ⟨401, .null⟩)
        ⟨some "Bearer t", true, false, some "inst-1", some .ADMIN, some "emp-1",
          ⟨some "inst-1", some "ADMIN", some "emp-1"⟩⟩).1.employeeId = some "emp-1" ∧
    (responseErrorInterceptor (some ⟨401, .null⟩)
        ⟨some "Bearer t", true, false, some "inst-1", some .ADMIN, some "emp-1",
          ⟨some "inst-1", some "ADMIN", some "emp-1"⟩⟩).1.isAuthenticated = true ∧
    ProtectedRoute none
        (responseErrorInterceptor (some ⟨401, .null⟩)
          ⟨some "Bearer t", true, false, some "inst-1", some .ADMIN, some "emp-1",
            ⟨some "inst-1", some "ADMIN", some "emp-1"⟩⟩).1 = .render := by
  decide

/-- C2 amended: a response with status exactly 401 makes the HTTP
Client clear the stored credential — the default Authorization header —
unconditionally, and changes nothing else: the three session fields and
`isAuthenticated` are untouched (a non-401 error changes nothing at
all), so the Route Guard on the next navigation does not redirect to
the login route while the session is still flagged authenticated. -/
theorem C2_amended (resp : ErrorResponse) (st : AuthState)
    (allowed : Option (List EmployeeRole)) :
    (resp.status = 401 →
      (responseErrorInterceptor (some resp) st).1 = { st with authHeader := none }) ∧
    (resp.status ≠ 401 →
      (responseErrorInterceptor (some resp) st).1 = st) ∧
    (st.initializing = false → st.isAuthenticated = true →
      ProtectedRoute allowed (responseErrorInterceptor (some resp) st).1 ≠
        GuardOutcome.redirect "/login") := by
  obtain ⟨status, data⟩ := resp
  refine ⟨?_, ?_, ?_⟩
  · intro h
    obtain rfl : status = 401 := h
    simp [responseErrorInterceptor, setAuthToken, truthyStr]
  · intro h
    have h2 : status ≠ 401 := h
    simp [responseErrorInterceptor, h2]
  · intro hinit hauth
    by_cases h401 : status = 401
    · obtain rfl : status = 401 := h401
      refine protectedRoute_ne_login_of_authenticated allowed _ ?_ ?_ <;>
        simp [responseErrorInterceptor, setAuthToken, truthyStr, hinit, hauth]
    · refine protectedRoute_ne_login_of_authenticated allowed _ ?_ ?_ <;>
        simp [responseErrorInterceptor, h401, hinit, hauth]

/-- Concrete instance of the amended C2: at an authenticated state a
401 leaves exactly the header-cleared state and the guard still
renders. -/
theorem C2_amended_witness :
    (responseErrorInterceptor (some ⟨401, .null⟩)
        ⟨some "Bearer t", true, false, some "inst-1", some .ADMIN, some "emp-1",
          ⟨some "inst-1", some "ADMIN", some "emp-1"⟩⟩).1 =
      { authHeader := none, isAuthenticated := true, initializing := false,
        institutionId := some "inst-1", role := some .ADMIN,
        employeeId := some "emp-1",
        store := ⟨some "inst-1", some "ADMIN", some "emp-1"⟩ } ∧
    ProtectedRoute (some [.PUBLISHER])
        (responseErrorInterceptor (some ⟨401, .null⟩)
          ⟨some "Bearer t", true, false, some "inst-1", some .ADMIN, some "emp-1",
            ⟨some "inst-1", some "ADMIN", some "emp-1"⟩⟩).1 ≠
      GuardOutcome.redirect "/login" :=
  ⟨(C2_amended ⟨401, .null⟩
      ⟨some "Bearer t", true, false, some "inst-1", some .ADMIN, some "emp-1",
        ⟨some "inst-1", some "ADMIN", some "emp-1"⟩⟩ (some [.PUBLISHER])).1 rfl,
   (C2_amended ⟨401, .null⟩
      ⟨some "Bearer t", true, false, some "inst-1", some .ADMIN, some "emp-1",
        ⟨some "inst-1", some "ADMIN", some "emp-1"⟩⟩ (some [.PUBLISHER])).2.2 rfl rfl⟩

/-! ### C1 — isAuthenticated vs Authorization header -/

/-- C1 as stated is false in the forward direction: a successful login
whose response carries no token (the specification's own Scenario B)
ends with `isAuthenticated = true` and no Authorization header. -/
theorem C1_counterexample :
    (login (.ok (.obj [("id", .str "emp-2"), ("role", .str "PUBLISHER"),
          ("institution", .obj [("id", .str "inst-3")])]))
        ⟨none, false, true, none, none, none, ⟨none, none, none⟩⟩).1.isAuthenticated
      = true ∧
    (login (.ok (.obj [("id", .str "emp-2"), ("role", .str "PUBLISHER"),
          ("institution", .obj [("id", .str "inst-3")])]))
        ⟨none, false, true, none, none, none, ⟨none, none, none⟩⟩).1.authHeader
      = none := by
  decide

/-- C1 amended: only the backward direction of the invariant holds.
Whenever `login`, `refresh` or `logout` settles, a resulting
`isAuthenticated = false` comes with an absent Authorization header
(failure paths and logout clear both), and the 401 interceptor
preserves that implication; the forward direction (authenticated ⇒
header attached) does not hold. -/
theorem C1_amended (outcome : Except ApiError JsValue) (lo : Option ApiError)
    (err : Option ErrorResponse) (st : AuthState) :
    ((login outcome st).1.isAuthenticated = false →
      (login outcome st).1.authHeader = none) ∧
    ((refresh outcome st).1.isAuthenticated = false →
      (refresh outcome st).1.authHeader = none) ∧
    ((logout lo st).1.isAuthenticated = false →
      (logout lo st).1.authHeader = none) ∧
    ((st.isAuthenticated = false → st.authHeader = none) →
      (responseErrorInterceptor err st).1.isAuthenticated = false →
      (responseErrorInterceptor err st).1.authHeader = none) := by
  refine ⟨?_, ?_, fun _ => rfl, ?_⟩
  · cases outcome with
    | ok response => intro h; simp [login] at h
    | error e => intro h; rfl
  · cases outcome with
    | ok response => intro h; simp [refresh] at h
    | error e => intro h; rfl
  · intro hinv
    cases err with
    | none => exact hinv
    | some r =>
      by_cases h401 : r.status = 401
      · intro h2
        simp [responseErrorInterceptor, h401, setAuthToken, truthyStr]
      · intro h2
        simp only [responseErrorInterceptor, h401, if_neg] at h2 ⊢
        exact hinv h2

/-- Concrete instance of the amended C1: a failed login clears the
header along with the flag. -/
theorem C1_amended_witness :
    (login (.error ⟨some 400, .str "bad credentials", none⟩)
        ⟨some "Bearer t", true, false, some "inst-1", some .ADMIN, some "emp-1",
          ⟨some "inst-1", some "ADMIN", some "emp-1"⟩⟩).1.authHeader = none :=
  (C1_amended (.error ⟨some 400, .str "bad credentials", none⟩) none none
      ⟨some "Bearer t", true, false, some "inst-1", some .ADMIN, some "emp-1",
        ⟨some "inst-1", some "ADMIN", some "emp-1"⟩⟩).1 (by decide)

/-! ### C5 — the token decoder's failure conditions -/

/-- C5 as stated is false: `decodeJwt` does not validate the segment
count (a two-segment input with a decodable middle segment yields its
payload) and does not require the payload to be an object (a JSON
number payload is returned as-is, not nulled). -/
theorem C5_counterexample :
    (splitOnChar '.' "x.eyJyb2xlIjoiUFVCTElTSEVSIn0".toList).length = 2 ∧
    decodeJwt "x.eyJyb2xlIjoiUFVCTElTSEVSIn0"
      = .obj [("role", .str "PUBLISHER")] ∧
    decodeJwt "a.MTIz.c" = .num "123" ∧
    decodeJwt "a.MTIz.c" ≠ .null := by
  refine ⟨by decide, by decide, by decide, by decide⟩

/-- C5 amended: `decodeJwt` is total (never throws) and returns either
JavaScript `null` or the JSON value parsed from the second dot-segment;
a non-null result means the split produced a non-empty second segment
and base64, UTF-8 and JSON decoding all succeeded — but neither the
total segment count nor the payload's object-ness is validated. -/
theorem C5_amended (token : String) :
    decodeJwt token = JsValue.null ∨
    ∃ payload bytes chars,
      (splitOnChar '.' token.toList)[1]? = some payload ∧ payload ≠ [] ∧
      atob (payload.map fun c => if c = '-' then '+' else if c = '_' then '/' else c)
        = some bytes ∧
      utf8Decode bytes = some chars ∧
      jsonParse chars = some (decodeJwt token) := by
  simp only [decodeJwt]
  cases h1 : (splitOnChar '.' token.toList)[1]? with
  | none => left; rfl
  | some payload =>
    by_cases hp : payload.isEmpty
    · simp [hp]
    · simp only [hp, if_false]
      cases h2 : atob (payload.map fun c =>
          if c = '-' then '+' else if c = '_' then '/' else c) with
      | none => left; rfl
      | some bytes =>
        cases h3 : utf8Decode bytes with
        | none => left; simp [h3]
        | some chars =>
          cases h4 : jsonParse chars with
          | none => left; simp [h3, h4]
          | some v =>
            right
            exact ⟨payload, bytes, chars, rfl, by simpa using hp, h2, h3,
              by simp [h3, h4]⟩

/-! ### Characterizations of the `applyAuthResponse` blocks

`tokenOf`, `claimStr`, `tokenDerived` and the fallback extractors read
off, from a response value alone, what each source-block derives; the
`_spec` lemmas prove each embedded block equal to its extractor-level
description. -/


def tokenOf (R : JsValue) : Option String :=
  match getField R "accessToken" with
  | .str t => if t = "" then none else some t
  | _ => none

def claimStr (claims : JsValue) (k : String) : Option String :=
  match getField claims k with
  | .str s => if s ≠ "" then some s else none
  | _ => none

def tokenDerived (R : JsValue) : DerivedSession :=
  match tokenOf R with
  | some t =>
    if truthy (decodeJwt t) then
      ⟨asEmployeeRole (getField (decodeJwt t) "role"),
       claimStr (decodeJwt t) "institutionId",
       claimStr (decodeJwt t) "sub"⟩
    else ⟨none, none, none⟩
  | none => ⟨none, none, none⟩

theorem applyTokenStep_spec (R : JsValue) (st : AuthState) :
    applyTokenStep R st =
      (tokenDerived R,
        { st with
          authHeader :=
            match tokenOf R with
            | some t => some ("Bearer " ++ t)
            | none => st.authHeader,
          institutionId :=
            match (tokenDerived R).institutionId with
            | some s => some s
            | none => st.institutionId,
          role :=
            match (tokenDerived R).role with
            | some r => some r
            | none => st.role,
          employeeId :=
            match (tokenDerived R).employeeId with
            | some s => some s
            | none => st.employeeId,
          store :=
            ⟨match (tokenDerived R).institutionId with
              | some s => some s
              | none => st.store.institutionId,
             match (tokenDerived R).role with
              | some r => some r.toString
              | none => st.store.employeeRole,
             match (tokenDerived R).employeeId with
              | some s => some s
              | none => st.store.employeeId⟩ }) := by
  cases hA : getField R "accessToken" with

  | str t =>
    by_cases ht : t = ""
    · simp [applyTokenStep, tokenOf, tokenDerived, claimStr, persistInstitutionId, persistRole, persistEmployeeId, setAuthToken, truthyStr, hA, ht]
    · by_cases hc : truthy (decodeJwt t)
      · cases hI : getField (decodeJwt t) "institutionId" with
        | str s =>
          by_cases hs : s = ""
          · -- s = ""
            cases hR : asEmployeeRole (getField (decodeJwt t) "role") with
            | some r =>
              cases hS : getField (decodeJwt t) "sub" with
              | str s2 =>
                by_cases hs2 : s2 = "" <;>
                  simp [applyTokenStep, tokenOf, tokenDerived, claimStr, persistInstitutionId, persistRole, persistEmployeeId, setAuthToken, truthyStr, hA, ht, hc, hI, hR, hS, hs, hs2]
              | null =>
                simp [applyTokenStep, tokenOf, tokenDerived, claimStr, persistInstitutionId, persistRole, persistEmployeeId, setAuthToken, truthyStr, hA, ht, hc, hI, hR, hS, hs]
              | undefined =>
                simp [applyTokenStep, tokenOf, tokenDerived, claimStr, persistInstitutionId, persistRole, persistEmployeeId, setAuthToken, truthyStr, hA, ht, hc, hI, hR, hS, hs]
              | bool b2 =>
                simp [applyTokenStep, tokenOf, tokenDerived, claimStr, persistInstitutionId, persistRole, persistEmployeeId, setAuthToken, truthyStr, hA, ht, hc, hI, hR, hS, hs]
              | num n2 =>
                simp [applyTokenStep, tokenOf, tokenDerived, claimStr, persistInstitutionId, persistRole, persistEmployeeId, setAuthToken, truthyStr, hA, ht, hc, hI, hR, hS, hs]
              | arr l2 =>
                simp [applyTokenStep, tokenOf, tokenDerived, claimStr, persistInstitutionId, persistRole, persistEmployeeId, setAuthToken, truthyStr, hA, ht, hc, hI, hR, hS, hs]
              | obj fs2 =>
                simp [applyTokenStep, tokenOf, tokenDerived, claimStr, persistInstitutionId, persistRole, persistEmployeeId, setAuthToken, truthyStr, hA, ht, hc, hI, hR, hS, hs]
            | none =>
              cases hS : getField (decodeJwt t) "sub" with
              | str s2 =>
                by_cases hs2 : s2 = "" <;>
                  simp [applyTokenStep, tokenOf, tokenDerived, claimStr, persistInstitutionId, persistRole, persistEmployeeId, setAuthToken, truthyStr, hA, ht, hc, hI, hR, hS, hs, hs2]
              | null =>
                simp [applyTokenStep, tokenOf, tokenDerived, claimStr, persistInstitutionId, persistRole, persistEmployeeId, setAuthToken, truthyStr, hA, ht, hc, hI, hR, hS, hs]
              | undefined =>
                simp [applyTokenStep, tokenOf, tokenDerived, claimStr, persistInstitutionId, persistRole, persistEmployeeId, setAuthToken, truthyStr, hA, ht, hc, hI, hR, hS, hs]
              | bool b2 =>
                simp [applyTokenStep, tokenOf, tokenDerived, claimStr, persistInstitutionId, persistRole, persistEmployeeId, setAuthToken, truthyStr, hA, ht, hc, hI, hR, hS, hs]
              | num n2 =>
                simp [applyTokenStep, tokenOf, tokenDerived, claimStr, persistInstitutionId, persistRole, persistEmployeeId, setAuthToken, truthyStr, hA, ht, hc, hI, hR, hS, hs]
              | arr l2 =>
                simp [applyTokenStep, tokenOf, tokenDerived, claimStr, persistInstitutionId, persistRole, persistEmployeeId, setAuthToken, truthyStr, hA, ht, hc, hI, hR, hS, hs]
              | obj fs2 =>
                simp [applyTokenStep, tokenOf, tokenDerived, claimStr, persistInstitutionId, persistRole, persistEmployeeId, setAuthToken, truthyStr, hA, ht, hc, hI, hR, hS, hs]
          · -- s nonempty
            cases hR : asEmployeeRole (getField (decodeJwt t) "role") with
            | some r =>
              cases hS : getField (decodeJwt t) "sub" with
              | str s2 =>
                by_cases hs2 : s2 = "" <;>
                  simp [applyTokenStep, tokenOf, tokenDerived, claimStr, persistInstitutionId, persistRole, persistEmployeeId, setAuthToken, truthyStr, hA, ht, hc, hI, hR, hS, hs, hs2]
              | null =>
                simp [applyTokenStep, tokenOf, tokenDerived, claimStr, persistInstitutionId, persistRole, persistEmployeeId, setAuthToken, truthyStr, hA, ht, hc, hI, hR, hS, hs]
              | undefined =>
                simp [applyTokenStep, tokenOf, tokenDerived, claimStr, persistInstitutionId, persistRole, persistEmployeeId, setAuthToken, truthyStr, hA, ht, hc, hI, hR, hS, hs]
              | bool b2 =>
                simp [applyTokenStep, tokenOf, tokenDerived, claimStr, persistInstitutionId, persistRole, persistEmployeeId, setAuthToken, truthyStr, hA, ht, hc, hI, hR, hS, hs]
              | num n2 =>
                simp [applyTokenStep, tokenOf, tokenDerived, claimStr, persistInstitutionId, persistRole, persistEmployeeId, setAuthToken, truthyStr, hA, ht, hc, hI, hR, hS, hs]
              | arr l2 =>
                simp [applyTokenStep, tokenOf, tokenDerived, claimStr, persistInstitutionId, persistRole, persistEmployeeId, setAuthToken, truthyStr, hA, ht, hc, hI, hR, hS, hs]
              | obj fs2 =>
                simp [applyTokenStep, tokenOf, tokenDerived, claimStr, persistInstitutionId, persistRole, persistEmployeeId, setAuthToken, truthyStr, hA, ht, hc, hI, hR, hS, hs]
            | none =>
              cases hS : getField (decodeJwt t) "sub" with
              | str s2 =>
                by_cases hs2 : s2 = "" <;>
                  simp [applyTokenStep, tokenOf, tokenDerived, claimStr, persistInstitutionId, persistRole, persistEmployeeId, setAuthToken, truthyStr, hA, ht, hc, hI, hR, hS, hs, hs2]
              | null =>
                simp [applyTokenStep, tokenOf, tokenDerived, claimStr, persistInstitutionId, persistRole, persistEmployeeId, setAuthToken, truthyStr, hA, ht, hc, hI, hR, hS, hs]
              | undefined =>
                simp [applyTokenStep, tokenOf, tokenDerived, claimStr, persistInstitutionId, persistRole, persistEmployeeId, setAuthToken, truthyStr, hA, ht, hc, hI, hR, hS, hs]
              | bool b2 =>
                simp [applyTokenStep, tokenOf, tokenDerived, claimStr, persistInstitutionId, persistRole, persistEmployeeId, setAuthToken, truthyStr, hA, ht, hc, hI, hR, hS, hs]
              | num n2 =>
                simp [applyTokenStep, tokenOf, tokenDerived, claimStr, persistInstitutionId, persistRole, persistEmployeeId, setAuthToken, truthyStr, hA, ht, hc, hI, hR, hS, hs]
              | arr l2 =>
                simp [applyTokenStep, tokenOf, tokenDerived, claimStr, persistInstitutionId, persistRole, persistEmployeeId, setAuthToken, truthyStr, hA, ht, hc, hI, hR, hS, hs]
              | obj fs2 =>
                simp [applyTokenStep, tokenOf, tokenDerived, claimStr, persistInstitutionId, persistRole, persistEmployeeId, setAuthToken, truthyStr, hA, ht, hc, hI, hR, hS, hs]
        | null =>
            cases hR : asEmployeeRole (getField (decodeJwt t) "role") with
            | some r =>
              cases hS : getField (decodeJwt t) "sub" with
              | str s2 =>
                by_cases hs2 : s2 = "" <;>
                  simp [applyTokenStep, tokenOf, tokenDerived, claimStr, persistInstitutionId, persistRole, persistEmployeeId, setAuthToken, truthyStr, hA, ht, hc, hI, hR, hS, hs2]
              | null =>
                simp [applyTokenStep, tokenOf, tokenDerived, claimStr, persistInstitutionId, persistRole, persistEmployeeId, setAuthToken, truthyStr, hA, ht, hc, hI, hR, hS]
              | undefined =>
                simp [applyTokenStep, tokenOf, tokenDerived, claimStr, persistInstitutionId, persistRole, persistEmployeeId, setAuthToken, truthyStr, hA, ht, hc, hI, hR, hS]
              | bool b2 =>
                simp [applyTokenStep, tokenOf, tokenDerived, claimStr, persistInstitutionId, persistRole, persistEmployeeId, setAuthToken, truthyStr, hA, ht, hc, hI, hR, hS]
              | num n2 =>
                simp [applyTokenStep, tokenOf, tokenDerived, claimStr, persistInstitutionId, persistRole, persistEmployeeId, setAuthToken, truthyStr, hA, ht, hc, hI, hR, hS]
              | arr l2 =>
                simp [applyTokenStep, tokenOf, tokenDerived, claimStr, persistInstitutionId, persistRole, persistEmployeeId, setAuthToken, truthyStr, hA, ht, hc, hI, hR, hS]
              | obj fs2 =>
                simp [applyTokenStep, tokenOf, tokenDerived, claimStr, persistInstitutionId, persistRole, persistEmployeeId, setAuthToken, truthyStr, hA, ht, hc, hI, hR, hS]
            | none =>
              cases hS : getField (decodeJwt t) "sub" with
              | str s2 =>
                by_cases hs2 : s2 = "" <;>
                  simp [applyTokenStep, tokenOf, tokenDerived, claimStr, persistInstitutionId, persistRole, persistEmployeeId, setAuthToken, truthyStr, hA, ht, hc, hI, hR, hS, hs2]
              | null =>
                simp [applyTokenStep, tokenOf, tokenDerived, claimStr, persistInstitutionId, persistRole, persistEmployeeId, setAuthToken, truthyStr, hA, ht, hc, hI, hR, hS]
              | undefined =>
                simp [applyTokenStep, tokenOf, tokenDerived, claimStr, persistInstitutionId, persistRole, persistEmployeeId, setAuthToken, truthyStr, hA, ht, hc, hI, hR, hS]
              | bool b2 =>
                simp [applyTokenStep, tokenOf, tokenDerived, claimStr, persistInstitutionId, persistRole, persistEmployeeId, setAuthToken, truthyStr, hA, ht, hc, hI, hR, hS]
              | num n2 =>
                simp [applyTokenStep, tokenOf, tokenDerived, claimStr, persistInstitutionId, persistRole, persistEmployeeId, setAuthToken, truthyStr, hA, ht, hc, hI, hR, hS]
              | arr l2 =>
                simp [applyTokenStep, tokenOf, tokenDerived, claimStr, persistInstitutionId, persistRole, persistEmployeeId, setAuthToken, truthyStr, hA, ht, hc, hI, hR, hS]
              | obj fs2 =>
                simp [applyTokenStep, tokenOf, tokenDerived, claimStr, persistInstitutionId, persistRole, persistEmployeeId, setAuthToken, truthyStr, hA, ht, hc, hI, hR, hS]
        | undefined =>
            cases hR : asEmployeeRole (getField (decodeJwt t) "role") with
            | some r =>
              cases hS : getField (decodeJwt t) "sub" with
              | str s2 =>
                by_cases hs2 : s2 = "" <;>
                  simp [applyTokenStep, tokenOf, tokenDerived, claimStr, persistInstitutionId, persistRole, persistEmployeeId, setAuthToken, truthyStr, hA, ht, hc, hI, hR, hS, hs2]
              | null =>
                simp [applyTokenStep, tokenOf, tokenDerived, claimStr, persistInstitutionId, persistRole, persistEmployeeId, setAuthToken, truthyStr, hA, ht, hc, hI, hR, hS]
              | undefined =>
                simp [applyTokenStep, tokenOf, tokenDerived, claimStr, persistInstitutionId, persistRole, persistEmployeeId, setAuthToken, truthyStr, hA, ht, hc, hI, hR, hS]
              | bool b2 =>
                simp [applyTokenStep, tokenOf, tokenDerived, claimStr, persistInstitutionId, persistRole, persistEmployeeId, setAuthToken, truthyStr, hA, ht, hc, hI, hR, hS]
              | num n2 =>
                simp [applyTokenStep, tokenOf, tokenDerived, claimStr, persistInstitutionId, persistRole, persistEmployeeId, setAuthToken, truthyStr, hA, ht, hc, hI, hR, hS]
              | arr l2 =>
                simp [applyTokenStep, tokenOf, tokenDerived, claimStr, persistInstitutionId, persistRole, persistEmployeeId, setAuthToken, truthyStr, hA, ht, hc, hI, hR, hS]
              | obj fs2 =>
                simp [applyTokenStep, tokenOf, tokenDerived, claimStr, persistInstitutionId, persistRole, persistEmployeeId, setAuthToken, truthyStr, hA, ht, hc, hI, hR, hS]
            | none =>
              cases hS : getField (decodeJwt t) "sub" with
              | str s2 =>
                by_cases hs2 : s2 = "" <;>
                  simp [applyTokenStep, tokenOf, tokenDerived, claimStr, persistInstitutionId, persistRole, persistEmployeeId, setAuthToken, truthyStr, hA, ht, hc, hI, hR, hS, hs2]
              | null =>
                simp [applyTokenStep, tokenOf, tokenDerived, claimStr, persistInstitutionId, persistRole, persistEmployeeId, setAuthToken, truthyStr, hA, ht, hc, hI, hR, hS]
              | undefined =>
                simp [applyTokenStep, tokenOf, tokenDerived, claimStr, persistInstitutionId, persistRole, persistEmployeeId, setAuthToken, truthyStr, hA, ht, hc, hI, hR, hS]
              | bool b2 =>
                simp [applyTokenStep, tokenOf, tokenDerived, claimStr, persistInstitutionId, persistRole, persistEmployeeId, setAuthToken, truthyStr, hA, ht, hc, hI, hR, hS]
              | num n2 =>
                simp [applyTokenStep, tokenOf, tokenDerived, claimStr, persistInstitutionId, persistRole, persistEmployeeId, setAuthToken, truthyStr, hA, ht, hc, hI, hR, hS]
              | arr l2 =>
                simp [applyTokenStep, tokenOf, tokenDerived, claimStr, persistInstitutionId, persistRole, persistEmployeeId, setAuthToken, truthyStr, hA, ht, hc, hI, hR, hS]
              | obj fs2 =>
                simp [applyTokenStep, tokenOf, tokenDerived, claimStr, persistInstitutionId, persistRole, persistEmployeeId, setAuthToken, truthyStr, hA, ht, hc, hI, hR, hS]
        | bool b1 =>
            cases hR : asEmployeeRole (getField (decodeJwt t) "role") with
            | some r =>
              cases hS : getField (decodeJwt t) "sub" with
              | str s2 =>
                by_cases hs2 : s2 = "" <;>
                  simp [applyTokenStep, tokenOf, tokenDerived, claimStr, persistInstitutionId, persistRole, persistEmployeeId, setAuthToken, truthyStr, hA, ht, hc, hI, hR, hS, hs2]
              | null =>
                simp [applyTokenStep, tokenOf, tokenDerived, claimStr, persistInstitutionId, persistRole, persistEmployeeId, setAuthToken, truthyStr, hA, ht, hc, hI, hR, hS]
              | undefined =>
                simp [applyTokenStep, tokenOf, tokenDerived, claimStr, persistInstitutionId, persistRole, persistEmployeeId, setAuthToken, truthyStr, hA, ht, hc, hI, hR, hS]
              | bool b2 =>
                simp [applyTokenStep, tokenOf, tokenDerived, claimStr, persistInstitutionId, persistRole, persistEmployeeId, setAuthToken, truthyStr, hA, ht, hc, hI, hR, hS]
              | num n2 =>
                simp [applyTokenStep, tokenOf, tokenDerived, claimStr, persistInstitutionId, persistRole, persistEmployeeId, setAuthToken, truthyStr, hA, ht, hc, hI, hR, hS]
              | arr l2 =>
                simp [applyTokenStep, tokenOf, tokenDerived, claimStr, persistInstitutionId, persistRole, persistEmployeeId, setAuthToken, truthyStr, hA, ht, hc, hI, hR, hS]
              | obj fs2 =>
                simp [applyTokenStep, tokenOf, tokenDerived, claimStr, persistInstitutionId, persistRole, persistEmployeeId, setAuthToken, truthyStr, hA, ht, hc, hI, hR, hS]
            | none =>
              cases hS : getField (decodeJwt t) "sub" with
              | str s2 =>
                by_cases hs2 : s2 = "" <;>
                  simp [applyTokenStep, tokenOf, tokenDerived, claimStr, persistInstitutionId, persistRole, persistEmployeeId, setAuthToken, truthyStr, hA, ht, hc, hI, hR, hS, hs2]
              | null =>
                simp [applyTokenStep, tokenOf, tokenDerived, claimStr, persistInstitutionId, persistRole, persistEmployeeId, setAuthToken, truthyStr, hA, ht, hc, hI, hR, hS]
              | undefined =>
                simp [applyTokenStep, tokenOf, tokenDerived, claimStr, persistInstitutionId, persistRole, persistEmployeeId, setAuthToken, truthyStr, hA, ht, hc, hI, hR, hS]
              | bool b2 =>
                simp [applyTokenStep, tokenOf, tokenDerived, claimStr, persistInstitutionId, persistRole, persistEmployeeId, setAuthToken, truthyStr, hA, ht, hc, hI, hR, hS]
              | num n2 =>
                simp [applyTokenStep, tokenOf, tokenDerived, claimStr, persistInstitutionId, persistRole, persistEmployeeId, setAuthToken, truthyStr, hA, ht, hc, hI, hR, hS]
              | arr l2 =>
                simp [applyTokenStep, tokenOf, tokenDerived, claimStr, persistInstitutionId, persistRole, persistEmployeeId, setAuthToken, truthyStr, hA, ht, hc, hI, hR, hS]
              | obj fs2 =>
                simp [applyTokenStep, tokenOf, tokenDerived, claimStr, persistInstitutionId, persistRole, persistEmployeeId, setAuthToken, truthyStr, hA, ht, hc, hI, hR, hS]
        | num n1 =>
            cases hR : asEmployeeRole (getField (decodeJwt t) "role") with
            | some r =>
              cases hS : getField (decodeJwt t) "sub" with
              | str s2 =>
                by_cases hs2 : s2 = "" <;>
                  simp [applyTokenStep, tokenOf, tokenDerived, claimStr, persistInstitutionId, persistRole, persistEmployeeId, setAuthToken, truthyStr, hA, ht, hc, hI, hR, hS, hs2]
              | null =>
                simp [applyTokenStep, tokenOf, tokenDerived, claimStr, persistInstitutionId, persistRole, persistEmployeeId, setAuthToken, truthyStr, hA, ht, hc, hI, hR, hS]
              | undefined =>
                simp [applyTokenStep, tokenOf, tokenDerived, claimStr, persistInstitutionId, persistRole, persistEmployeeId, setAuthToken, truthyStr, hA, ht, hc, hI, hR, hS]
              | bool b2 =>
                simp [applyTokenStep, tokenOf, tokenDerived, claimStr, persistInstitutionId, persistRole, persistEmployeeId, setAuthToken, truthyStr, hA, ht, hc, hI, hR, hS]
              | num n2 =>
                simp [applyTokenStep, tokenOf, tokenDerived, claimStr, persistInstitutionId, persistRole, persistEmployeeId, setAuthToken, truthyStr, hA, ht, hc, hI, hR, hS]
              | arr l2 =>
                simp [applyTokenStep, tokenOf, tokenDerived, claimStr, persistInstitutionId, persistRole, persistEmployeeId, setAuthToken, truthyStr, hA, ht, hc, hI, hR, hS]
              | obj fs2 =>
                simp [applyTokenStep, tokenOf, tokenDerived, claimStr, persistInstitutionId, persistRole, persistEmployeeId, setAuthToken, truthyStr, hA, ht, hc, hI, hR, hS]
            | none =>
              cases hS : getField (decodeJwt t) "sub" with
              | str s2 =>
                by_cases hs2 : s2 = "" <;>
                  simp [applyTokenStep, tokenOf, tokenDerived, claimStr, persistInstitutionId, persistRole, persistEmployeeId, setAuthToken, truthyStr, hA, ht, hc, hI, hR, hS, hs2]
              | null =>
                simp [applyTokenStep, tokenOf, tokenDerived, claimStr, persistInstitutionId, persistRole, persistEmployeeId, setAuthToken, truthyStr, hA, ht, hc, hI, hR, hS]
              | undefined =>
                simp [applyTokenStep, tokenOf, tokenDerived, claimStr, persistInstitutionId, persistRole, persistEmployeeId, setAuthToken, truthyStr, hA, ht, hc, hI, hR, hS]
              | bool b2 =>
                simp [applyTokenStep, tokenOf, tokenDerived, claimStr, persistInstitutionId, persistRole, persistEmployeeId, setAuthToken, truthyStr, hA, ht, hc, hI, hR, hS]
              | num n2 =>
                simp [applyTokenStep, tokenOf, tokenDerived, claimStr, persistInstitutionId, persistRole, persistEmployeeId, setAuthToken, truthyStr, hA, ht, hc, hI, hR, hS]
              | arr l2 =>
                simp [applyTokenStep, tokenOf, tokenDerived, claimStr, persistInstitutionId, persistRole, persistEmployeeId, setAuthToken, truthyStr, hA, ht, hc, hI, hR, hS]
              | obj fs2 =>
                simp [applyTokenStep, tokenOf, tokenDerived, claimStr, persistInstitutionId, persistRole, persistEmployeeId, setAuthToken, truthyStr, hA, ht, hc, hI, hR, hS]
        | arr l1 =>
            cases hR : asEmployeeRole (getField (decodeJwt t) "role") with
            | some r =>
              cases hS : getField (decodeJwt t) "sub" with
              | str s2 =>
                by_cases hs2 : s2 = "" <;>
                  simp [applyTokenStep, tokenOf, tokenDerived, claimStr, persistInstitutionId, persistRole, persistEmployeeId, setAuthToken, truthyStr, hA, ht, hc, hI, hR, hS, hs2]
              | null =>
                simp [applyTokenStep, tokenOf, tokenDerived, claimStr, persistInstitutionId, persistRole, persistEmployeeId, setAuthToken, truthyStr, hA, ht, hc, hI, hR, hS]
              | undefined =>
                simp [applyTokenStep, tokenOf, tokenDerived, claimStr, persistInstitutionId, persistRole, persistEmployeeId, setAuthToken, truthyStr, hA, ht, hc, hI, hR, hS]
              | bool b2 =>
                simp [applyTokenStep, tokenOf, tokenDerived, claimStr, persistInstitutionId, persistRole, persistEmployeeId, setAuthToken, truthyStr, hA, ht, hc, hI, hR, hS]
              | num n2 =>
                simp [applyTokenStep, tokenOf, tokenDerived, claimStr, persistInstitutionId, persistRole, persistEmployeeId, setAuthToken, truthyStr, hA, ht, hc, hI, hR, hS]
              | arr l2 =>
                simp [applyTokenStep, tokenOf, tokenDerived, claimStr, persistInstitutionId, persistRole, persistEmployeeId, setAuthToken, truthyStr, hA, ht, hc, hI, hR, hS]
              | obj fs2 =>
                simp [applyTokenStep, tokenOf, tokenDerived, claimStr, persistInstitutionId, persistRole, persistEmployeeId, setAuthToken, truthyStr, hA, ht, hc, hI, hR, hS]
            | none =>
              cases hS : getField (decodeJwt t) "sub" with
              | str s2 =>
                by_cases hs2 : s2 = "" <;>
                  simp [applyTokenStep, tokenOf, tokenDerived, claimStr, persistInstitutionId, persistRole, persistEmployeeId, setAuthToken, truthyStr, hA, ht, hc, hI, hR, hS, hs2]
              | null =>
                simp [applyTokenStep, tokenOf, tokenDerived, claimStr, persistInstitutionId, persistRole, persistEmployeeId, setAuthToken, truthyStr, hA, ht, hc, hI, hR, hS]
              | undefined =>
                simp [applyTokenStep, tokenOf, tokenDerived, claimStr, persistInstitutionId, persistRole, persistEmployeeId, setAuthToken, truthyStr, hA, ht, hc, hI, hR, hS]
              | bool b2 =>
                simp [applyTokenStep, tokenOf, tokenDerived, claimStr, persistInstitutionId, persistRole, persistEmployeeId, setAuthToken, truthyStr, hA, ht, hc, hI, hR, hS]
              | num n2 =>
                simp [applyTokenStep, tokenOf, tokenDerived, claimStr, persistInstitutionId, persistRole, persistEmployeeId, setAuthToken, truthyStr, hA, ht, hc, hI, hR, hS]
              | arr l2 =>
                simp [applyTokenStep, tokenOf, tokenDerived, claimStr, persistInstitutionId, persistRole, persistEmployeeId, setAuthToken, truthyStr, hA, ht, hc, hI, hR, hS]
              | obj fs2 =>
                simp [applyTokenStep, tokenOf, tokenDerived, claimStr, persistInstitutionId, persistRole, persistEmployeeId, setAuthToken, truthyStr, hA, ht, hc, hI, hR, hS]
        | obj fs1 =>
            cases hR : asEmployeeRole (getField (decodeJwt t) "role") with
            | some r =>
              cases hS : getField (decodeJwt t) "sub" with
              | str s2 =>
                by_cases hs2 : s2 = "" <;>
                  simp [applyTokenStep, tokenOf, tokenDerived, claimStr, persistInstitutionId, persistRole, persistEmployeeId, setAuthToken, truthyStr, hA, ht, hc, hI, hR, hS, hs2]
              | null =>
                simp [applyTokenStep, tokenOf, tokenDerived, claimStr, persistInstitutionId, persistRole, persistEmployeeId, setAuthToken, truthyStr, hA, ht, hc, hI, hR, hS]
              | undefined =>
                simp [applyTokenStep, tokenOf, tokenDerived, claimStr, persistInstitutionId, persistRole, persistEmployeeId, setAuthToken, truthyStr, hA, ht, hc, hI, hR, hS]
              | bool b2 =>
                simp [applyTokenStep, tokenOf, tokenDerived, claimStr, persistInstitutionId, persistRole, persistEmployeeId, setAuthToken, truthyStr, hA, ht, hc, hI, hR, hS]
              | num n2 =>
                simp [applyTokenStep, tokenOf, tokenDerived, claimStr, persistInstitutionId, persistRole, persistEmployeeId, setAuthToken, truthyStr, hA, ht, hc, hI, hR, hS]
              | arr l2 =>
                simp [applyTokenStep, tokenOf, tokenDerived, claimStr, persistInstitutionId, persistRole, persistEmployeeId, setAuthToken, truthyStr, hA, ht, hc, hI, hR, hS]
              | obj fs2 =>
                simp [applyTokenStep, tokenOf, tokenDerived, claimStr, persistInstitutionId, persistRole, persistEmployeeId, setAuthToken, truthyStr, hA, ht, hc, hI, hR, hS]
            | none =>
              cases hS : getField (decodeJwt t) "sub" with
              | str s2 =>
                by_cases hs2 : s2 = "" <;>
                  simp [applyTokenStep, tokenOf, tokenDerived, claimStr, persistInstitutionId, persistRole, persistEmployeeId, setAuthToken, truthyStr, hA, ht, hc, hI, hR, hS, hs2]
              | null =>
                simp [applyTokenStep, tokenOf, tokenDerived, claimStr, persistInstitutionId, persistRole, persistEmployeeId, setAuthToken, truthyStr, hA, ht, hc, hI, hR, hS]
              | undefined =>
                simp [applyTokenStep, tokenOf, tokenDerived, claimStr, persistInstitutionId, persistRole, persistEmployeeId, setAuthToken, truthyStr, hA, ht, hc, hI, hR, hS]
              | bool b2 =>
                simp [applyTokenStep, tokenOf, tokenDerived, claimStr, persistInstitutionId, persistRole, persistEmployeeId, setAuthToken, truthyStr, hA, ht, hc, hI, hR, hS]
              | num n2 =>
                simp [applyTokenStep, tokenOf, tokenDerived, claimStr, persistInstitutionId, persistRole, persistEmployeeId, setAuthToken, truthyStr, hA, ht, hc, hI, hR, hS]
              | arr l2 =>
                simp [applyTokenStep, tokenOf, tokenDerived, claimStr, persistInstitutionId, persistRole, persistEmployeeId, setAuthToken, truthyStr, hA, ht, hc, hI, hR, hS]
              | obj fs2 =>
                simp [applyTokenStep, tokenOf, tokenDerived, claimStr, persistInstitutionId, persistRole, persistEmployeeId, setAuthToken, truthyStr, hA, ht, hc, hI, hR, hS]
      · simp [applyTokenStep, tokenOf, tokenDerived, claimStr, persistInstitutionId, persistRole, persistEmployeeId, setAuthToken, truthyStr, hA, ht, hc]
  | null => simp [applyTokenStep, tokenOf, tokenDerived, claimStr, persistInstitutionId, persistRole, persistEmployeeId, setAuthToken, truthyStr, hA]
  | undefined => simp [applyTokenStep, tokenOf, tokenDerived, claimStr, persistInstitutionId, persistRole, persistEmployeeId, setAuthToken, truthyStr, hA]
  | bool b => simp [applyTokenStep, tokenOf, tokenDerived, claimStr, persistInstitutionId, persistRole, persistEmployeeId, setAuthToken, truthyStr, hA]
  | num n => simp [applyTokenStep, tokenOf, tokenDerived, claimStr, persistInstitutionId, persistRole, persistEmployeeId, setAuthToken, truthyStr, hA]
  | arr l => simp [applyTokenStep, tokenOf, tokenDerived, claimStr, persistInstitutionId, persistRole, persistEmployeeId, setAuthToken, truthyStr, hA]
  | obj fs => simp [applyTokenStep, tokenOf, tokenDerived, claimStr, persistInstitutionId, persistRole, persistEmployeeId, setAuthToken, truthyStr, hA]

/-- The institution-id fallback value, when it is a non-empty string. -/
def instFallbackString (R : JsValue) : Option String :=
  match instFallbackValue R with
  | .str s => if s ≠ "" then some s else none
  | _ => none

theorem applyInstFallback_spec (R : JsValue) (next : DerivedSession) (st : AuthState) :
    applyInstFallback R next st =
      match instFallbackString R with
      | some s =>
        (if truthyStr next.institutionId then next
         else { next with institutionId := some s },
         { st with institutionId := some s, store.institutionId := some s })
      | none => (next, st) := by
  cases hv : instFallbackValue R with
  | str s =>
    by_cases hs : s = "" <;>
      simp [applyInstFallback, instFallbackString, hv, hs, persistInstitutionId, truthyStr]
  | null => simp [applyInstFallback, instFallbackString, hv]
  | undefined => simp [applyInstFallback, instFallbackString, hv]
  | bool b => simp [applyInstFallback, instFallbackString, hv]
  | num n => simp [applyInstFallback, instFallbackString, hv]
  | arr l => simp [applyInstFallback, instFallbackString, hv]
  | obj fs => simp [applyInstFallback, instFallbackString, hv]

theorem applyRoleFallback_spec (R : JsValue) (next : DerivedSession) (st : AuthState) :
    applyRoleFallback R next st =
      match asEmployeeRole (roleFallbackValue R), next.role with
      | some r, none =>
        ({ next with role := some r },
         { st with role := some r, store.employeeRole := some r.toString })
      | _, _ => (next, st) := by
  cases hv : asEmployeeRole (roleFallbackValue R) with
  | some r =>
    cases hn : next.role with
    | some r2 => simp [applyRoleFallback, hv, hn]
    | none => simp [applyRoleFallback, hv, hn, persistRole]
  | none => simp [applyRoleFallback, hv]

/-- The employee-id fallback value, when it is a non-empty string. -/
def empFallbackString (R : JsValue) : Option String :=
  match employeeFallbackValue R with
  | .str s => if s ≠ "" then some s else none
  | _ => none

theorem applyEmployeeFallback_spec (R : JsValue) (next : DerivedSession) (st : AuthState) :
    applyEmployeeFallback R next st =
      match empFallbackString R, truthyStr next.employeeId with
      | some s, false =>
        ({ next with employeeId := some s },
         { st with employeeId := some s, store.employeeId := some s })
      | _, _ => (next, st) := by
  cases hv : employeeFallbackValue R with
  | str s =>
    by_cases hs : s = ""
    · simp [applyEmployeeFallback, empFallbackString, hv, hs]
    · cases hn : next.employeeId with
      | none =>
        simp [applyEmployeeFallback, empFallbackString, hv, hs, hn,
          persistEmployeeId, truthyStr]
      | some s2 =>
        by_cases hs2 : s2 = "" <;>
          simp [applyEmployeeFallback, empFallbackString, hv, hs, hn, hs2,
            persistEmployeeId, truthyStr]
  | null => simp [applyEmployeeFallback, empFallbackString, hv]
  | undefined => simp [applyEmployeeFallback, empFallbackString, hv]
  | bool b => simp [applyEmployeeFallback, empFallbackString, hv]
  | num n => simp [applyEmployeeFallback, empFallbackString, hv]
  | arr l => simp [applyEmployeeFallback, empFallbackString, hv]
  | obj fs => simp [applyEmployeeFallback, empFallbackString, hv]

theorem getField_ne_undef_obj {R : JsValue} {k : String}
    (h : getField R k ≠ .undefined) : ∃ fs, R = .obj fs := by
  cases R with
  | obj fs => exact ⟨fs, rfl⟩
  | null => exact absurd rfl h
  | undefined => exact absurd rfl h
  | bool b => exact absurd rfl h
  | num n => exact absurd rfl h
  | str s => exact absurd rfl h
  | arr l => exact absurd rfl h

theorem getField_ne_undef_of_asEmployeeRole {v : JsValue} {k : String}
    {r : EmployeeRole} (h : asEmployeeRole (getField v k) = some r) :
    ∃ fs, v = .obj fs := by
  apply getField_ne_undef_obj (k := k)
  intro hu
  rw [hu] at h
  exact Option.noConfusion h

/-- On an object the early-return guard passes and `applyAuthResponse`
is the token step followed by the three fallbacks. -/
theorem applyAuthResponse_obj (fs : List (String × JsValue)) (st : AuthState) :
    applyAuthResponse (.obj fs) st =
      (let p1 := applyTokenStep (.obj fs) st
       let p2 := applyInstFallback (.obj fs) p1.1 p1.2
       let p3 := applyRoleFallback (.obj fs) p2.1 p2.2
       applyEmployeeFallback (.obj fs) p3.1 p3.2) := rfl

/-! ### C4 — claims role beats the top-level fallback -/

/-- C4: when the response carries a non-empty bearer token whose
decoded claims hold an enum role, that role is the one returned and
persisted, even when a different enum role sits at the top level: the
fallback is gated on no role having been derived from the claims. -/
theorem C4_claims_role_precedence (R : JsValue) (st : AuthState)
    (t : String) (r r2 : EmployeeRole)
    (hA : getField R "accessToken" = .str t) (ht : t ≠ "")
    (hr : asEmployeeRole (getField (decodeJwt t) "role") = some r)
    (htop : asEmployeeRole (getField R "role") = some r2) (hne : r2 ≠ r) :
    (applyAuthResponse R st).1.role = some r ∧
    (applyAuthResponse R st).2.store.employeeRole = some r.toString := by
  obtain ⟨fs, rfl⟩ : ∃ fs, R = .obj fs :=
    getField_ne_undef_obj (k := "accessToken")
      (by rw [hA]; exact fun h => JsValue.noConfusion h)
  obtain ⟨cfs, hclaims⟩ := getField_ne_undef_of_asEmployeeRole hr
  have htok : tokenOf (JsValue.obj fs) = some t := by simp [tokenOf, hA, ht]
  have htruthy : truthy (decodeJwt t) = true := by rw [hclaims]; rfl
  have htd : (tokenDerived (JsValue.obj fs)).role = some r := by
    simp [tokenDerived, htok, htruthy, hr]
  cases hIF : instFallbackString (JsValue.obj fs) <;>
  cases hRF : asEmployeeRole (roleFallbackValue (JsValue.obj fs)) <;>
  cases hEF : empFallbackString (JsValue.obj fs) <;>
  cases hTE : truthyStr (tokenDerived (JsValue.obj fs)).employeeId <;>
  cases hTI : truthyStr (tokenDerived (JsValue.obj fs)).institutionId <;>
  simp [applyAuthResponse_obj, applyTokenStep_spec, applyInstFallback_spec,
    applyRoleFallback_spec, applyEmployeeFallback_spec, htd, hIF, hRF, hEF,
    hTE, hTI]

/-- Concrete instance of C4: a PUBLISHER token claim beats a top-level
`role: "ADMIN"`. -/
theorem C4_claims_role_precedence_witness :
    (applyAuthResponse
        (.obj [("accessToken", .str "a.eyJyb2xlIjoiUFVCTElTSEVSIn0.c"),
               ("role", .str "ADMIN")])
        ⟨none, false, true, none, none, none, ⟨none, none, none⟩⟩).1.role
      = some .PUBLISHER ∧
    (applyAuthResponse
        (.obj [("accessToken", .str "a.eyJyb2xlIjoiUFVCTElTSEVSIn0.c"),
               ("role", .str "ADMIN")])
        ⟨none, false, true, none, none, none, ⟨none, none, none⟩⟩).2.store.employeeRole
      = some "PUBLISHER" :=
  C4_claims_role_precedence
    (.obj [("accessToken", .str "a.eyJyb2xlIjoiUFVCTElTSEVSIn0.c"),
           ("role", .str "ADMIN")])
    ⟨none, false, true, none, none, none, ⟨none, none, none⟩⟩
    "a.eyJyb2xlIjoiUFVCTElTSEVSIn0.c" .PUBLISHER .ADMIN
    (by decide) (by decide) (by decide) (by decide) (by decide)

/-! ### C9 — institution-id fallback chain semantics -/

/-- C9 as stated is false: a truthy non-string at an earlier position
of the `||` chain short-circuits it, so the later non-empty string
`"inst-3"` does not win — nothing is derived or persisted. -/
theorem C9_counterexample :
    (applyAuthResponse
        (.obj [("institutionId", .bool true),
               ("institution", .obj [("id", .str "inst-3")])])
        ⟨none, false, true, none, none, none, ⟨none, none, none⟩⟩).1.institutionId
      = none ∧
    (applyAuthResponse
        (.obj [("institutionId", .bool true),
               ("institution", .obj [("id", .str "inst-3")])])
        ⟨none, false, true, none, none, none, ⟨none, none, none⟩⟩).2.store.institutionId
      = none := by
  decide

/-- C9 amended: the fallback sources are consulted in the declared
order and the first truthy value wins; it is derived and persisted only
when it is a non-empty string.  A falsy value at an earlier position
does not prevent a later non-empty string from winning, but a truthy
non-string at an earlier position short-circuits the chain and prevents
any later source from being considered. -/
theorem C9_amended (R : JsValue) (next : DerivedSession) (st : AuthState)
    (s : String) :
    (truthy (getField R "institutionId") = false →
      getField (getField R "institution") "id" = .str s → s ≠ "" →
      (applyInstFallback R next st).2.store.institutionId = some s ∧
      (truthyStr next.institutionId = false →
        (applyInstFallback R next st).1.institutionId = some s)) ∧
    (truthy (getField R "institutionId") = true →
      (∀ s2 : String, getField R "institutionId" ≠ .str s2) →
      applyInstFallback R next st = (next, st)) := by
  constructor
  · intro hfa hb hs
    have hchain : instFallbackValue R = .str s := by
      unfold instFallbackValue jsOr
      rw [hfa, hb]
      simp [truthy, hs]
    have hifs : instFallbackString R = some s := by
      simp [instFallbackString, hchain, hs]
    rw [applyInstFallback_spec, hifs]
    exact ⟨rfl, fun hn => by simp [hn]⟩
  · intro hta hns
    have hchain : instFallbackValue R = getField R "institutionId" := by
      simp [instFallbackValue, jsOr, hta]
    have hnone : instFallbackString R = none := by
      rw [instFallbackString, hchain]
      cases hg : getField R "institutionId" with
      | str s2 => exact absurd hg (hns s2)
      | null => rfl
      | undefined => rfl
      | bool b => rfl
      | num n => rfl
      | arr l => rfl
      | obj fs => rfl
    rw [applyInstFallback_spec, hnone]

/-- Concrete instances of the amended C9: an empty string (falsy) at
the first position lets the nested institution id win; `true` at the
first position blocks it. -/
theorem C9_amended_witness :
    (applyInstFallback
        (.obj [("institutionId", .str ""),
               ("institution", .obj [("id", .str "inst-3")])])
        ⟨none, none, none⟩
        ⟨none, false, true, none, none, none, ⟨none, none, none⟩⟩).2.store.institutionId
      = some "inst-3" ∧
    applyInstFallback
        (.obj [("institutionId", .bool true),
               ("institution", .obj [("id", .str "inst-3")])])
        ⟨none, none, none⟩
        ⟨none, false, true, none, none, none, ⟨none, none, none⟩⟩
      = (⟨none, none, none⟩,
         ⟨none, false, true, none, none, none, ⟨none, none, none⟩⟩) :=
  ⟨((C9_amended
      (.obj [("institutionId", .str ""),
             ("institution", .obj [("id", .str "inst-3")])])
      ⟨none, none, none⟩
      ⟨none, false, true, none, none, none, ⟨none, none, none⟩⟩
      "inst-3").1 (by decide) (by decide) (by decide)).1,
   (C9_amended
      (.obj [("institutionId", .bool true),
             ("institution", .obj [("id", .str "inst-3")])])
      ⟨none, none, none⟩
      ⟨none, false, true, none, none, none, ⟨none, none, none⟩⟩
      "unused").2 (by decide) (fun s2 h => by simp [getField] at h)⟩


/-- The string matched by the `isEmployeeRole` type guard is exactly
the enum member's name. -/
theorem asEmployeeRole_eq_some {v : JsValue} {r : EmployeeRole}
    (h : asEmployeeRole v = some r) : v = .str r.toString := by
  unfold asEmployeeRole at h
  split at h <;> simp_all [EmployeeRole.toString] <;> (cases h; rfl)

theorem applyAuthResponse_guard_true (R : JsValue) (st : AuthState)
    (h1 : truthy R = true) (h2 : typeofIsObject R = true) :
    applyAuthResponse R st =
      (let p1 := applyTokenStep R st
       let p2 := applyInstFallback R p1.1 p1.2
       let p3 := applyRoleFallback R p2.1 p2.2
       applyEmployeeFallback R p3.1 p3.2) := by
  simp [applyAuthResponse, h1, h2]

theorem applyAuthResponse_guard_false (R : JsValue) (st : AuthState)
    (h : truthy R = false ∨ typeofIsObject R = false) :
    applyAuthResponse R st = (⟨none, none, none⟩, st) := by
  rcases h with h | h <;> simp [applyAuthResponse, h]


/-! ### C6 — the role is always a valid enum member or null -/

/-- C6: the session role can only ever be one of the four enum values
or null.  (a) A stored `"SUPERADMIN"` is normalized to null on load and
any role produced by the initializer comes verbatim from the enum;
(b) `applyAuthResponse` either leaves the persisted role untouched or
writes an enum member's name; (c) when every role-bearing position of
the response (token claims, top level, nested user object) fails the
enum guard, the derived role is null and the persisted role is
unchanged. -/
theorem C6_role_always_valid (stored : Option String) (R : JsValue) (st : AuthState) :
    (initRole (some "SUPERADMIN") = none) ∧
    (∀ r : EmployeeRole, initRole stored = some r → stored = some r.toString) ∧
    ((applyAuthResponse R st).2.store.employeeRole = st.store.employeeRole ∨
      ∃ r : EmployeeRole,
        (applyAuthResponse R st).2.store.employeeRole = some r.toString) ∧
    ((tokenDerived R).role = none →
      asEmployeeRole (roleFallbackValue R) = none →
      (applyAuthResponse R st).1.role = none ∧
      (applyAuthResponse R st).2.store.employeeRole = st.store.employeeRole) := by
  refine ⟨rfl, ?_, ?_, ?_⟩
  · intro r h
    cases stored with
    | none => exact Option.noConfusion h
    | some s =>
      unfold initRole at h
      by_cases hs : s = ""
      · simp [hs] at h
      · simp only [hs, ne_eq, not_false_iff, if_true, if_neg] at h
        have := asEmployeeRole_eq_some h
        injection this with h2
        rw [h2]
  · by_cases hg : truthy R = true ∧ typeofIsObject R = true
    · rw [applyAuthResponse_guard_true R st hg.1 hg.2]
      cases hTD : (tokenDerived R).role <;>
      cases hRF : asEmployeeRole (roleFallbackValue R) <;>
      cases hIF : instFallbackString R <;>
      cases hEF : empFallbackString R <;>
      cases hTE : truthyStr (tokenDerived R).employeeId <;>
      cases hTI : truthyStr (tokenDerived R).institutionId <;>
      simp [applyTokenStep_spec, applyInstFallback_spec, applyRoleFallback_spec,
        applyEmployeeFallback_spec, hTD, hRF, hIF, hEF, hTE, hTI]
    · have hor : truthy R = false ∨ typeofIsObject R = false := by
        by_cases h1 : truthy R = true
        · by_cases h2 : typeofIsObject R = true
          · exact absurd ⟨h1, h2⟩ hg
          · right; simpa using h2
        · left; simpa using h1
      rw [applyAuthResponse_guard_false R st hor]
      left; rfl
  · intro hTD hRF
    by_cases hg : truthy R = true ∧ typeofIsObject R = true
    · rw [applyAuthResponse_guard_true R st hg.1 hg.2]
      cases hIF : instFallbackString R <;>
      cases hEF : empFallbackString R <;>
      cases hTE : truthyStr (tokenDerived R).employeeId <;>
      cases hTI : truthyStr (tokenDerived R).institutionId <;>
      simp [applyTokenStep_spec, applyInstFallback_spec, applyRoleFallback_spec,
        applyEmployeeFallback_spec, hTD, hRF, hIF, hEF, hTE, hTI]
    · have hor : truthy R = false ∨ typeofIsObject R = false := by
        by_cases h1 : truthy R = true
        · by_cases h2 : typeofIsObject R = true
          · exact absurd ⟨h1, h2⟩ hg
          · right; simpa using h2
        · left; simpa using h1
      rw [applyAuthResponse_guard_false R st hor]
      exact ⟨rfl, rfl⟩

/-- Concrete instance of C6: a response carrying `"SUPERADMIN"` both at
the top level and in the nested user object derives no role and leaves
the persisted role untouched. -/
theorem C6_role_always_valid_witness :
    (applyAuthResponse
        (.obj [("role", .str "SUPERADMIN"),
               ("user", .obj [("role", .str "SUPERADMIN")])])
        ⟨none, true, false, some "inst-1", some .ADMIN, some "emp-1",
          ⟨some "inst-1", some "ADMIN", some "emp-1"⟩⟩).1.role = none ∧
    (applyAuthResponse
        (.obj [("role", .str "SUPERADMIN"),
               ("user", .obj [("role", .str "SUPERADMIN")])])
        ⟨none, true, false, some "inst-1", some .ADMIN, some "emp-1",
          ⟨some "inst-1", some "ADMIN", some "emp-1"⟩⟩).2.store.employeeRole
      = some "ADMIN" :=
  (C6_role_always_valid none
      (.obj [("role", .str "SUPERADMIN"),
             ("user", .obj [("role", .str "SUPERADMIN")])])
      ⟨none, true, false, some "inst-1", some .ADMIN, some "emp-1",
        ⟨some "inst-1", some "ADMIN", some "emp-1"⟩⟩).2.2.2
    (by decide) (by decide)

theorem claimStr_ne_some_empty (claims : JsValue) (k : String) :
    claimStr claims k ≠ some "" := by
  unfold claimStr
  cases getField claims k with
  | str s => by_cases hs : s = "" <;> simp [hs]
  | null => simp
  | undefined => simp
  | bool b => simp
  | num n => simp
  | arr l => simp
  | obj fs => simp

theorem tokenDerived_inst_ne_empty (R : JsValue) :
    (tokenDerived R).institutionId ≠ some "" := by
  unfold tokenDerived
  cases tokenOf R with
  | some t =>
    by_cases h : truthy (decodeJwt t) <;>
      simp [h, claimStr_ne_some_empty]
  | none => simp

theorem tokenDerived_emp_ne_empty (R : JsValue) :
    (tokenDerived R).employeeId ≠ some "" := by
  unfold tokenDerived
  cases tokenOf R with
  | some t =>
    by_cases h : truthy (decodeJwt t) <;>
      simp [h, claimStr_ne_some_empty]
  | none => simp

/-! ### C3 — persisted values vs the returned triple -/

/-- C3 as stated is false: because the institution-id fallback persists
without checking whether the claims already supplied a value, a
response whose token claims carry `inst-A` while the top level carries
`institutionId: "inst-B"` ends with the store holding `inst-B` but the
returned triple holding `inst-A`. -/
theorem C3_counterexample :
    (applyAuthResponse
        (.obj [("accessToken", .str "a.eyJpbnN0aXR1dGlvbklkIjoiaW5zdC1BIn0.c"),
               ("institutionId", .str "inst-B")])
        ⟨none, false, true, none, none, none, ⟨none, none, none⟩⟩).1.institutionId
      = some "inst-A" ∧
    (applyAuthResponse
        (.obj [("accessToken", .str "a.eyJpbnN0aXR1dGlvbklkIjoiaW5zdC1BIn0.c"),
               ("institutionId", .str "inst-B")])
        ⟨none, false, true, none, none, none, ⟨none, none, none⟩⟩).2.store.institutionId
      = some "inst-B" := by
  decide

/-- C3 amended: starting from a state with empty storage and no
Authorization header, after `applyAuthResponse(R)` on an object the
persisted role and employee id equal the returned triple's, and the
header is set iff R carried a non-empty string bearer token; the
returned institution id prefers the claims-derived value over the
fallback, while the persisted institution id prefers the fallback over
the claims-derived value — so they coincide unless both sources exist
and differ. -/
theorem C3_amended (R : JsValue) (st : AuthState)
    (hstore : st.store = ⟨none, none, none⟩)
    (hheader : st.authHeader = none)
    (hR : truthy R = true) (hobj : typeofIsObject R = true) :
    ((applyAuthResponse R st).2.authHeader =
      match tokenOf R with
      | some t => some ("Bearer " ++ t)
      | none => none) ∧
    (applyAuthResponse R st).2.store.employeeRole =
      ((applyAuthResponse R st).1.role).map EmployeeRole.toString ∧
    (applyAuthResponse R st).2.store.employeeId =
      (applyAuthResponse R st).1.employeeId ∧
    (applyAuthResponse R st).1.institutionId =
      ((tokenDerived R).institutionId).or (instFallbackString R) ∧
    (applyAuthResponse R st).2.store.institutionId =
      (instFallbackString R).or ((tokenDerived R).institutionId) := by
  have hT1 : (tokenDerived R).institutionId ≠ some "" := tokenDerived_inst_ne_empty R
  have hT2 : (tokenDerived R).employeeId ≠ some "" := tokenDerived_emp_ne_empty R
  rw [applyAuthResponse_guard_true R st hR hobj]
  cases hti : (tokenDerived R).institutionId <;>
  cases htr : (tokenDerived R).role <;>
  cases hte : (tokenDerived R).employeeId <;>
  cases hIF : instFallbackString R <;>
  cases hRF : asEmployeeRole (roleFallbackValue R) <;>
  cases hEF : empFallbackString R <;>
  simp_all [applyTokenStep_spec, applyInstFallback_spec, applyRoleFallback_spec,
    applyEmployeeFallback_spec, truthyStr, Option.or]

/-- Concrete instance of the amended C3 (the specification's Scenario
A): from a clean state the persisted role matches the returned one. -/
theorem C3_amended_witness :
    (applyAuthResponse
        (.obj [("accessToken",
          .str "a.eyJzdWIiOiJlbXAtMSIsInJvbGUiOiJBRE1JTiIsImluc3RpdHV0aW9uSWQiOiJpbnN0LTkifQ.c")])
        ⟨none, false, true, none, none, none, ⟨none, none, none⟩⟩).2.store.employeeRole =
      ((applyAuthResponse
        (.obj [("accessToken",
          .str "a.eyJzdWIiOiJlbXAtMSIsInJvbGUiOiJBRE1JTiIsImluc3RpdHV0aW9uSWQiOiJpbnN0LTkifQ.c")])
        ⟨none, false, true, none, none, none, ⟨none, none, none⟩⟩).1.role).map
          EmployeeRole.toString :=
  (C3_amended
    (.obj [("accessToken",
      .str "a.eyJzdWIiOiJlbXAtMSIsInJvbGUiOiJBRE1JTiIsImluc3RpdHV0aW9uSWQiOiJpbnN0LTkifQ.c")])
    ⟨none, false, true, none, none, none, ⟨none, none, none⟩⟩
    rfl rfl (by decide) (by decide)).2.1
